import Mathlib

/-!
# Verification of the SAM Dynamic Planner (`sam/orchestration/planner.py`)

A shallow embedding of the plan-orchestration engine of the SAM repository:
the `DynamicPlanner` class with its cache, fingerprints, response validation,
rule-based planning and `create_plan` orchestration, translated from
`src/sam/orchestration/planner.py`.

Modelling conventions:
* Python `dict`s become association lists with unique keys
  (`alist_get` / `alist_set` / `alist_erase`).
* Python floats for confidence values become `ℚ`; rational constants are
  written with `mkRat` so that they reduce in the kernel. Timestamps and the
  TTL are modelled in whole seconds as `ℤ` (the fractional part of a
  `total_seconds()` value plays no role in the claims).
* `datetime.now()` becomes an explicit `now : ℤ` argument (seconds); an
  entry's age `(now - created_at).total_seconds()` becomes `now - created_at`.
* `hashlib.md5(x).hexdigest()` is modelled by `md5_hexdigest`, an injective
  encoding of its input string (collision freedom of the digest is assumed).
* `json.loads` (Python standard library) is a field `json_loads` of the
  planner state: an arbitrary function `String → Except String PyVal`;
  raising `JSONDecodeError` is modelled by `Except.error`.
* The LLM collaborator (`self._llm_model.generate`) and the curriculum
  collaborator (`self._curriculum.generate_reasoning_plan`) are optional
  function fields of the state; raising is `Except.error`.
* The graph-database collaborator is consulted only for availability and is
  modelled by a `Bool` field, mirroring `if not self._graph_database`.
* The `try`/`except Exception` wrapper of `create_plan` is modelled by an
  explicit `exc : Option String` argument: `some e` stands for an exception
  with message `e` escaping to the `create_plan` boundary (Python permits
  exceptions at many incidental points inside the `try` block); `none` is a
  run in which no exception escapes the inner strategy handlers.
-/

/-- A value of Python's JSON data model, as produced by `json.loads`. -/
inductive PyVal : Type where
  | null : PyVal
  | bool : Bool → PyVal
  | num : ℚ → PyVal
  | str : String → PyVal
  | list : List PyVal → PyVal
  | dict : List (String × PyVal) → PyVal

/-- Association-list lookup, modelling `d[k]` / `k in d` on a Python dict. -/
def alist_get {α : Type} (k : String) : List (String × α) → Option α
  | [] => Option.none
  | (k₀, v) :: t => if k₀ = k then some v else alist_get k t

/-- Replace the value bound to `k`, keeping the binding's position. -/
def alist_replace {α : Type} (k : String) (v : α) : List (String × α) → List (String × α)
  | [] => []
  | (k₀, w) :: t =>
      if k₀ = k then (k, v) :: alist_replace k v t
      else (k₀, w) :: alist_replace k v t

/-- Association-list update, modelling `d[k] = v` on a Python dict: replaces
the value at an existing key in place, otherwise appends the binding. -/
def alist_set {α : Type} (k : String) (v : α) (d : List (String × α)) :
    List (String × α) :=
  if (alist_get k d).isSome then alist_replace k v d else d ++ [(k, v)]

/-- Association-list removal, modelling `del d[k]` on a Python dict. -/
def alist_erase {α : Type} (k : String) : List (String × α) → List (String × α)
  | [] => []
  | (k₀, v) :: t => if k₀ = k then t else (k₀, v) :: alist_erase k t

/-- Lexicographic order on character lists by code point, as used by Python's
string comparison. -/
def chars_le : List Char → List Char → Bool
  | [], _ => true
  | _ :: _, [] => false
  | a :: as, b :: bs => if a < b then true else if a = b then chars_le as bs else false

/-- Python's `<=` on strings (lexicographic by code point). -/
def str_le (a b : String) : Bool :=
  chars_le a.data b.data

/-- Ordered insertion for `sort_strings`. -/
def insort (x : String) : List String → List String
  | [] => [x]
  | y :: ys => if str_le x y then x :: y :: ys else y :: insort x ys

/-- Python's `sorted` on a list of strings (ascending lexicographic order). -/
def sort_strings (l : List String) : List String :=
  l.foldr insort []

/-- ASCII lower-casing of one character, as `str.lower` does on the ASCII
skill keywords the planner works with. -/
def lower_char (c : Char) : Char :=
  if 'A' ≤ c ∧ c ≤ 'Z' then Char.ofNat (c.toNat + 32) else c

/-- Python's `str.lower()` (restricted to ASCII case mapping). -/
def lower_string (s : String) : String :=
  String.mk (s.data.map lower_char)

/-- Whether the first character list is an initial segment of the second. -/
def chars_starts_with : List Char → List Char → Bool
  | [], _ => true
  | _ :: _, [] => false
  | a :: as, b :: bs => a = b && chars_starts_with as bs

/-- Whether the first character list occurs contiguously in the second. -/
def chars_infix (needle : List Char) : List Char → Bool
  | [] => needle.isEmpty
  | b :: bs => chars_starts_with needle (b :: bs) || chars_infix needle bs

/-- Python's `needle in haystack` substring test. -/
def substr_in (needle hay : String) : Bool :=
  chars_infix needle.data hay.data

/-- Whitespace recognized by Python's `str.strip()`. -/
def is_space (c : Char) : Bool :=
  c = ' ' || c = '\t' || c = '\n' || c = '\r' || c = '\x0b' || c = '\x0c'

/-- Python's `str.strip()` on a character list. -/
def strip_chars (s : List Char) : List Char :=
  ((s.dropWhile is_space).reverse.dropWhile is_space).reverse

/-- Python's `str.find(c)`: index of the first occurrence, `-1` if absent. -/
def find_idx (c : Char) : List Char → Int
  | [] => -1
  | a :: t =>
      if a = c then 0
      else if find_idx c t = -1 then -1 else find_idx c t + 1

/-- Python's `str.rfind(c)`: index of the last occurrence, `-1` if absent. -/
def rfind_idx (c : Char) : List Char → Int
  | [] => -1
  | a :: t =>
      if rfind_idx c t = -1 then (if a = c then 0 else -1)
      else rfind_idx c t + 1

/-- Python's `sep.join(parts)`. -/
def py_join (sep : String) : List String → String
  | [] => ""
  | [a] => a
  | a :: b :: t => a ++ sep ++ py_join sep (b :: t)

/-- A single-quote character, used by Python's `repr` of strings. -/
def squote : String :=
  String.singleton (Char.ofNat 39)

/-- Python's `repr` of a plain string (single-quoted; the skill names involved
contain no quotes or escapes). -/
def py_repr_str (s : String) : String :=
  squote ++ s ++ squote

/-- Python's `str` of a list of strings, e.g. `['a', 'b']`, as interpolated by
an f-string. -/
def py_str_list (xs : List String) : String :=
  "[" ++ py_join ", " (xs.map py_repr_str) ++ "]"

/-- Models `hashlib.md5(s.encode()).hexdigest()` as an injective encoding of
the input string: the digest is deterministic, and its collision freedom on
the finitely many fingerprint inputs in play is assumed. -/
def md5_hexdigest (s : String) : String :=
  s

/-- `BaseSkillModule` interface fields consumed by the planner
(`skill_name`, `skill_description`, `required_inputs`, `output_keys`,
`skill_category`, `skill_version`). Modelled from the spec: the class itself
lives in `sam/orchestration/skills/base.py`, which is not part of the sources;
the spec's skill-collaborator interface lists exactly these fields. -/
structure Skill where
  skill_name : String
  skill_description : String
  required_inputs : List String
  output_keys : List String
  skill_category : String
  skill_version : String
deriving DecidableEq

/-- Modelled from the spec: the configuration object returned by
`get_sof_config()` (module `sam/orchestration/config.py`, not part of the
sources); the spec's recognized options are `enablePlanCaching`,
`planCacheTtlSeconds` and `maxPlanLength`, read by the planner as
`enable_plan_caching`, `plan_cache_ttl` and `max_plan_length`. -/
structure SOFConfig where
  enable_plan_caching : Bool
  plan_cache_ttl : ℤ
  max_plan_length : Nat
deriving DecidableEq

/-- Modelled from the spec: the fields of `SAM_UIF`
(`sam/orchestration/uif.py`, not part of the sources) that the planner reads
or writes: the query, the active profile, the user context, the mutable
intermediate-data bag, and the curriculum bookkeeping fields. -/
structure SAM_UIF where
  input_query : String
  active_profile : String
  user_context : List (String × String)
  intermediate_data : List (String × PyVal)
  curriculum_level : String
  complexity_score : ℚ
  reasoning_strategy : String
  estimated_effort : ℚ

/-- `PlanCacheEntry` (dataclass): a cached plan with confidence, creation
time, usage counter, query fingerprint and registry-context fingerprint. -/
structure PlanCacheEntry where
  plan : List String
  confidence : ℚ
  created_at : ℤ
  usage_count : Nat
  query_hash : String
  skill_context : String
deriving DecidableEq

/-- `PlanGenerationResult` (dataclass): the value returned by `create_plan`. -/
structure PlanGenerationResult where
  plan : List String
  confidence : ℚ
  reasoning : String
  cache_hit : Bool
  generation_time : ℚ
  fallback_used : Bool
deriving DecidableEq

/-- Modelled from the spec: the reasoning plan returned by the curriculum
collaborator's `generate_reasoning_plan` (`reasoning_curriculum.py`, not part
of the sources); the spec lists fields `skills`, `curriculumLevel`,
`complexityScore`, `confidenceThreshold`, `reasoningStrategy`,
`estimatedEffort`. `curriculum_level` stands for the enum value's `.value`. -/
structure ReasoningPlan where
  skills : List String
  curriculum_level : String
  complexity_score : ℚ
  confidence_threshold : ℚ
  reasoning_strategy : String
  estimated_effort : ℚ

/-- The mutable state of a `DynamicPlanner` instance together with its
collaborators: the registered-skill dict, the plan cache, the configuration,
and the optional curriculum / LLM / graph-database collaborators.
`json_loads` models the standard library's `json.loads`. -/
structure PlannerState where
  config : SOFConfig
  registered_skills : List (String × Skill)
  plan_cache : List (String × PlanCacheEntry)
  curriculum : Option (String → List String → Except String ReasoningPlan)
  llm_model : Option (String → ℚ → Nat → Except String String)
  graph_database : Bool
  json_loads : String → Except String PyVal

/-- The currently registered skill names, in registration order
(`self._registered_skills.keys()`). -/
def names (st : PlannerState) : List String :=
  st.registered_skills.map (fun p => p.1)

/-- `register_skill`: `self._registered_skills[skill.skill_name] = skill`. -/
def register_skill (st : PlannerState) (skill : Skill) : PlannerState :=
  { st with registered_skills := alist_set skill.skill_name skill st.registered_skills }

/-- `register_skills`: register a list of skills in order. -/
def register_skills (st : PlannerState) (skills : List Skill) : PlannerState :=
  skills.foldl register_skill st

/-- Modelled from the spec: `unregister(name)` of the SkillRegistry component
(the planner module itself exposes no removal operation; the spec's registry
interface includes it) — removes the binding for `name` from the dict. -/
def unregister_skill (st : PlannerState) (name : String) : PlannerState :=
  { st with registered_skills := alist_erase name st.registered_skills }

/-- `_generate_query_hash`: md5 over
`f"{uif.input_query}|{uif.active_profile}|{sorted(self._registered_skills.keys())}"`. -/
def generate_query_hash (st : PlannerState) (uif : SAM_UIF) : String :=
  md5_hexdigest
    (uif.input_query ++ "|" ++ uif.active_profile ++ "|" ++
      py_str_list (sort_strings (names st)))

/-- The `f"{skill_name}:{skill.skill_version}"` signature of one registered
skill (the empty version for an absent name never occurs on the names of the
registry itself). -/
def skill_signature (st : PlannerState) (n : String) : String :=
  n ++ ":" ++
    (match alist_get n st.registered_skills with
     | some sk => sk.skill_version
     | Option.none => "")

/-- `_generate_skill_context`: the sorted `name:version` signatures joined
with `|`. -/
def generate_skill_context (st : PlannerState) : String :=
  py_join "|" ((sort_strings (names st)).map (skill_signature st))

/-- `_is_cache_entry_valid`: the entry fails if its age exceeds the TTL
(`age.total_seconds() > self._config.plan_cache_ttl`) or if the current skill
context differs from the recorded one. -/
def is_cache_entry_valid (st : PlannerState) (now : ℤ) (entry : PlanCacheEntry) : Bool :=
  if now - entry.created_at > st.config.plan_cache_ttl then false
  else if entry.skill_context ≠ generate_skill_context st then false
  else true

/-- The usage-counter increment performed on a cache hit
(`entry.usage_count += 1`). -/
def bump_entry (entry : PlanCacheEntry) : PlanCacheEntry :=
  { entry with usage_count := entry.usage_count + 1 }

/-- `_check_plan_cache`: look up the query hash; a valid entry has its usage
counter incremented (`bump_entry`) and is returned, an invalid entry is
deleted. Returns the hit (if any) together with the updated state. -/
def check_plan_cache (st : PlannerState) (uif : SAM_UIF) (now : ℤ) :
    Option PlanCacheEntry × PlannerState :=
  match alist_get (generate_query_hash st uif) st.plan_cache with
  | some entry =>
      if is_cache_entry_valid st now entry then
        (some (bump_entry entry),
         { st with plan_cache :=
             alist_set (generate_query_hash st uif) (bump_entry entry) st.plan_cache })
      else
        (Option.none,
         { st with plan_cache := alist_erase (generate_query_hash st uif) st.plan_cache })
  | Option.none => (Option.none, st)

/-- `_cleanup_cache`: remove every entry that is no longer valid. -/
def cleanup_cache (st : PlannerState) (now : ℤ) : PlannerState :=
  { st with plan_cache :=
      st.plan_cache.filter (fun p => is_cache_entry_valid st now p.2) }

/-- The `PlanCacheEntry` built by `_cache_plan`: the result's plan and
confidence, created now, zero usage, keyed by the query hash, carrying the
current skill context. -/
def cached_entry (st : PlannerState) (uif : SAM_UIF) (result : PlanGenerationResult)
    (now : ℤ) : PlanCacheEntry :=
  { plan := result.plan
    confidence := result.confidence
    created_at := now
    usage_count := 0
    query_hash := generate_query_hash st uif
    skill_context := generate_skill_context st }

/-- `_cache_plan`: store the result under the query hash with a fresh usage
counter and the current skill context, then clean up expired entries. -/
def cache_plan (st : PlannerState) (uif : SAM_UIF) (result : PlanGenerationResult)
    (now : ℤ) : PlannerState :=
  let entry := cached_entry st uif result now
  cleanup_cache
    { st with plan_cache := alist_set (generate_query_hash st uif) entry st.plan_cache }
    now

/-- The number of indicators from `inds` occurring in the query
(`sum(1 for indicator in inds if indicator in query_lower)`). -/
def indicator_score (inds : List String) (query_lower : String) : Nat :=
  inds.countP (fun i => substr_in i query_lower)

/-- Graph-mode indicators of `_determine_retrieval_mode`. -/
def graph_indicators : List String :=
  ["how", "why", "what causes", "relationship", "connection", "related to",
   "because", "leads to", "results in", "depends on", "influences",
   "who works", "where is", "when did", "which company", "what technology",
   "connects", "links", "associates", "correlates", "impacts"]

/-- Vector-mode indicators of `_determine_retrieval_mode`. -/
def vector_indicators : List String :=
  ["similar to", "like", "about", "regarding", "concerning",
   "find documents", "search for", "show me", "tell me about",
   "content", "text", "document", "file", "information"]

/-- Hybrid-mode indicators of `_determine_retrieval_mode`. -/
def hybrid_indicators : List String :=
  ["explain", "analyze", "compare", "contrast", "overview",
   "summary", "comprehensive", "detailed", "complete picture",
   "understand", "breakdown", "elaborate", "describe fully"]

/-- `_determine_retrieval_mode`: VECTOR when no graph database is available,
otherwise the score-based tie-break. -/
def determine_retrieval_mode (st : PlannerState) (query_lower : String) : String :=
  if !st.graph_database then "VECTOR"
  else
    let graph_score := indicator_score graph_indicators query_lower
    let vector_score := indicator_score vector_indicators query_lower
    let hybrid_score := indicator_score hybrid_indicators query_lower
    if hybrid_score > 0 || (graph_score > 0 && vector_score > 0) then "HYBRID"
    else if graph_score > vector_score then "GRAPH"
    else if vector_score > 0 then "VECTOR"
    else "AUTO"

/-- Deep-traversal indicators of `_determine_graph_depth`. -/
def deep_indicators : List String :=
  ["comprehensive", "complete", "all", "everything", "thorough",
   "detailed", "full picture", "entire", "whole", "extensive"]

/-- Multi-hop indicators of `_determine_graph_depth`. -/
def depth_multi_hop_indicators : List String :=
  ["chain", "sequence", "path", "route", "journey", "process",
   "step by step", "how does", "what leads", "cascade", "ripple"]

/-- Simple-relationship indicators of `_determine_graph_depth`. -/
def simple_indicators : List String :=
  ["direct", "immediate", "first", "primary", "main", "basic"]

/-- `_determine_graph_depth`: 4 for deep queries, 3 for multi-hop, 1 for
simple, 2 by default. -/
def determine_graph_depth (query_lower : String) : Nat :=
  if indicator_score deep_indicators query_lower > 0 then 4
  else if indicator_score depth_multi_hop_indicators query_lower > 0 then 3
  else if indicator_score simple_indicators query_lower > 0 then 1
  else 2

/-- Conflict indicators of `_generate_fallback_plan`. -/
def conflict_indicators : List String :=
  ["compare", "versus", "different", "conflicting", "sources"]

/-- Multi-hop indicators of `_generate_fallback_plan`. -/
def multi_hop_indicators : List String :=
  ["how does", "what is the relationship", "connect", "link", "relate",
   "why does", "what causes", "how are", "what connects", "bridge",
   "underlying", "implicit", "hidden connection", "between"]

/-- Whether a skill of this name is registered (`name in self._registered_skills`). -/
def skill_registered (st : PlannerState) (name : String) : Bool :=
  (alist_get name st.registered_skills).isSome

/-- `_get_default_fallback_plan`: the registered core skills in order, or
`["ResponseGenerationSkill"]` when the collected list is empty
(`return default_plan or ["ResponseGenerationSkill"]`). -/
def get_default_fallback_plan (st : PlannerState) : List String :=
  let default_plan :=
    ["MemoryRetrievalSkill", "ResponseGenerationSkill"].filter
      (fun n => skill_registered st n)
  if default_plan = [] then ["ResponseGenerationSkill"] else default_plan

/-- `uif.intermediate_data.get("search_context", \x7b\x7d)` as read by the
rule-based planner (a non-dict value there would make the subsequent item
assignment raise; that run is covered by the `exc` path of `create_plan`). -/
def read_search_context (uif : SAM_UIF) : List (String × PyVal) :=
  match alist_get "search_context" uif.intermediate_data with
  | some (PyVal.dict d) => d
  | _ => []

/-- The `search_context` dict written by the retrieval stage of
`_generate_fallback_plan`: the chosen retrieval mode, plus graph depth and an
increased result count when a graph mode was chosen and the graph database is
available. -/
def memory_stage_context (st : PlannerState) (uif : SAM_UIF) (query_lower : String) :
    List (String × PyVal) :=
  let retrieval_mode := determine_retrieval_mode st query_lower
  let sc₁ := alist_set "retrieval_mode" (PyVal.str retrieval_mode) (read_search_context uif)
  if (retrieval_mode = "GRAPH" || retrieval_mode = "HYBRID") && st.graph_database then
    alist_set "max_results" (PyVal.num 15)
      (alist_set "graph_depth" (PyVal.num (determine_graph_depth query_lower)) sc₁)
  else sc₁

/-- The retrieval stage of `_generate_fallback_plan`: when
`MemoryRetrievalSkill` is registered, choose the retrieval mode, write the
search context into the UIF and append the skill. Returns the plan part, the
reasoning part and the (possibly updated) UIF. -/
def memory_stage (st : PlannerState) (uif : SAM_UIF) (query_lower : String) :
    List String × List String × SAM_UIF :=
  if skill_registered st "MemoryRetrievalSkill" then
    let sc := PyVal.dict (memory_stage_context st uif query_lower)
    let uif' := { uif with
      intermediate_data := alist_set "search_context" sc uif.intermediate_data }
    (["MemoryRetrievalSkill"],
     ["Added " ++ lower_string (determine_retrieval_mode st query_lower) ++
        " memory retrieval for context"],
     uif')
  else ([], [], uif)

/-- The conflict-detection stage of `_generate_fallback_plan`. -/
def conflict_stage (st : PlannerState) (query_lower : String) :
    List String × List String :=
  if conflict_indicators.any (fun i => substr_in i query_lower) &&
     skill_registered st "ConflictDetectorSkill" then
    (["ConflictDetectorSkill"], ["Added conflict detection for comparison query"])
  else ([], [])

/-- The multi-hop stage of `_generate_fallback_plan`. -/
def multihop_stage (st : PlannerState) (query_lower : String) :
    List String × List String :=
  if multi_hop_indicators.any (fun i => substr_in i query_lower) &&
     skill_registered st "ImplicitKnowledgeSkill" then
    (["ImplicitKnowledgeSkill"], ["Added implicit knowledge skill for multi-hop reasoning"])
  else ([], [])

/-- The terminal response-generation stage of `_generate_fallback_plan`. -/
def response_stage (st : PlannerState) : List String × List String :=
  if skill_registered st "ResponseGenerationSkill" then
    (["ResponseGenerationSkill"], ["Added response generation as final step"])
  else ([], [])

/-- The plan accumulated by stages 1–5 of `_generate_fallback_plan` before
the default-plan fallback. -/
def fallback_stage_plan (st : PlannerState) (uif : SAM_UIF) : List String :=
  let q := lower_string uif.input_query
  (memory_stage st uif q).1 ++ (conflict_stage st q).1 ++
    (multihop_stage st q).1 ++ (response_stage st).1

/-- `_generate_fallback_plan`: the staged rule-based planner. Returns the
result together with the updated UIF (whose intermediate-data bag may have
received a `search_context`). -/
def generate_fallback_plan (st : PlannerState) (uif : SAM_UIF) :
    PlanGenerationResult × SAM_UIF :=
  let q := lower_string uif.input_query
  let plan := fallback_stage_plan st uif
  let reasoning_parts :=
    (memory_stage st uif q).2.1 ++ (conflict_stage st q).2 ++
      (multihop_stage st q).2 ++ (response_stage st).2
  let final : List String × List String :=
    if plan = [] then (get_default_fallback_plan st, ["Used default fallback plan"])
    else (plan, reasoning_parts)
  ({ plan := final.1
     confidence := mkRat 6 10
     reasoning := py_join "; " final.2
     cache_hit := false
     generation_time := 0
     fallback_used := true }, (memory_stage st uif q).2.2)

/-- Python's `str` of the user-context dict, as interpolated by the prompt
builder. -/
def py_str_str_dict (d : List (String × String)) : String :=
  "\x7b" ++
    py_join ", "
      (d.map (fun p => py_repr_str p.1 ++ ": " ++ py_repr_str p.2)) ++
    "\x7d"

/-- The per-skill lines of `_create_planning_prompt`. -/
def skill_block (p : String × Skill) : List String :=
  ["- " ++ p.1 ++ ": " ++ p.2.skill_description,
   "  Inputs: " ++ py_str_list p.2.required_inputs,
   "  Outputs: " ++ py_str_list p.2.output_keys,
   "  Category: " ++ p.2.skill_category,
   ""]

/-- `_create_planning_prompt`: the prompt text handed to the LLM collaborator
(`"\n".join(prompt_parts)`). -/
def create_planning_prompt (st : PlannerState) (uif : SAM_UIF) : String :=
  let header :=
    ["You are the planning engine for the SAM AI system. Your task is to analyze the user" ++
       squote ++ "s query and generate a JSON plan specifying the precise skills needed to answer the query, in the correct execution order.",
     "",
     "User Query: " ++ uif.input_query,
     "",
     "Available Skills:"]
  let skills := st.registered_skills.flatMap skill_block
  let context :=
    if uif.user_context ≠ [] then
      ["User Context:", py_str_str_dict uif.user_context, ""]
    else []
  let instructions :=
    ["Instructions:",
     "1. Analyze the query to understand what information and processing is needed",
     "2. Select the minimum necessary skills to fulfill the request",
     "3. Order skills so that dependencies are satisfied (outputs of earlier skills feed inputs of later skills)",
     "4. Always include ResponseGenerationSkill as the final step to create the user response",
     "5. Consider including MemoryRetrievalSkill if the query might benefit from stored knowledge",
     "6. Include ConflictDetectorSkill if multiple information sources might conflict",
     "7. Include ImplicitKnowledgeSkill for multi-hop questions that require connecting disparate pieces of information",
     "",
     "Response Format (JSON only):",
     "\x7b",
     "  \"plan\": [\"SkillName1\", \"SkillName2\", \"SkillName3\"],",
     "  \"reasoning\": \"Brief explanation of why these skills were chosen and ordered this way\",",
     "  \"confidence\": 0.85",
     "\x7d",
     "",
     "Your JSON response:"]
  py_join "\n" (header ++ skills ++ context ++ instructions)

/-- The JSON substring extraction of `_parse_llm_response`: strip the
response, slice from the first `\x7b` to the last `\x7d`; fail when the
guard `start_idx >= 0 and end_idx > start_idx` does not hold. -/
def extract_json_str (response : String) : Option String :=
  let r := strip_chars response.data
  let start_idx := find_idx '{' r
  let end_idx := rfind_idx '}' r + 1
  if 0 ≤ start_idx ∧ end_idx > start_idx then
    some (String.mk ((r.drop start_idx.toNat).take (end_idx - start_idx).toNat))
  else Option.none

/-- Whether one element of a candidate `plan` names a registered skill
(`skill_name not in self._registered_skills` fails for any non-name value). -/
def plan_elem_registered (st : PlannerState) : PyVal → Bool
  | PyVal.str s => skill_registered st s
  | _ => false

/-- `_validate_generated_plan`: the candidate must be a dict with a `plan`
list whose every element names a registered skill, and the plan must not
exceed the configured maximum length. -/
def validate_generated_plan (st : PlannerState) : PyVal → Bool
  | PyVal.dict kvs =>
      match alist_get "plan" kvs with
      | some (PyVal.list plan) =>
          plan.all (plan_elem_registered st) &&
          decide (plan.length ≤ st.config.max_plan_length)
      | _ => false
  | _ => false

/-- The decoding-and-validation tail of `_parse_llm_response`: decode the
extracted substring (a decoding error — `json.JSONDecodeError` — is caught
and yields `None`) and keep the candidate only when
`_validate_generated_plan` accepts it. -/
def decode_and_validate (st : PlannerState) (json_str : String) : Option PyVal :=
  match st.json_loads json_str with
  | Except.ok plan_data =>
      if validate_generated_plan st plan_data then some plan_data else Option.none
  | Except.error _ => Option.none

/-- `_parse_llm_response`: extract the JSON substring, then decode and
validate it. -/
def parse_llm_response (st : PlannerState) (response : String) : Option PyVal :=
  match extract_json_str response with
  | some json_str => decode_and_validate st json_str
  | Option.none => Option.none

/-- The `plan` field of a parsed candidate (`plan_data["plan"]`), empty when
absent. -/
def plan_field_list (v : PyVal) : List PyVal :=
  match v with
  | PyVal.dict kvs =>
      match alist_get "plan" kvs with
      | some (PyVal.list l) => l
      | _ => []
  | _ => []

/-- The skill name carried by a validated plan element (validation guarantees
every element is a string). -/
def pyval_to_skill_name : PyVal → String
  | PyVal.str s => s
  | _ => ""

/-- `plan_data.get(k, default)` for a numeric field. A non-numeric value in
the field would make Python fail later at the `> 0.5` cache comparison
(that run is covered by the `exc` path of `create_plan`); it is modelled by
the default here. -/
def dict_get_num (v : PyVal) (k : String) (default : ℚ) : ℚ :=
  match v with
  | PyVal.dict kvs =>
      match alist_get k kvs with
      | some (PyVal.num q) => q
      | _ => default
  | _ => default

/-- `plan_data.get(k, default)` for a string field. -/
def dict_get_str (v : PyVal) (k : String) (default : String) : String :=
  match v with
  | PyVal.dict kvs =>
      match alist_get k kvs with
      | some (PyVal.str s) => s
      | _ => default
  | _ => default

/-- `_generate_llm_plan`: build the prompt, invoke the collaborator with
temperature 0.3 and a 500-token budget, parse the response; a collaborator
error, an invalid candidate, or a falsy `plan` field falls back to the
rule-based plan. -/
def generate_llm_plan (st : PlannerState) (uif : SAM_UIF) :
    PlanGenerationResult × SAM_UIF :=
  match st.llm_model with
  | some gen =>
      match gen (create_planning_prompt st uif) (mkRat 3 10) 500 with
      | Except.ok response =>
          match parse_llm_response st response with
          | some plan_data =>
              if !(plan_field_list plan_data).isEmpty then
                ({ plan := (plan_field_list plan_data).map pyval_to_skill_name
                   confidence := dict_get_num plan_data "confidence" (mkRat 8 10)
                   reasoning := dict_get_str plan_data "reasoning" "Generated by LLM planner"
                   cache_hit := false
                   generation_time := 0
                   fallback_used := false }, uif)
              else generate_fallback_plan st uif
          | Option.none => generate_fallback_plan st uif
      | Except.error _ => generate_fallback_plan st uif
  | Option.none => generate_fallback_plan st uif

/-- `_generate_curriculum_plan`: delegate to the curriculum collaborator and
copy its bookkeeping fields onto the UIF; a collaborator error falls through
to the LLM strategy when configured, else to the rule-based plan. -/
def generate_curriculum_plan (st : PlannerState) (uif : SAM_UIF)
    (cur : String → List String → Except String ReasoningPlan) :
    PlanGenerationResult × SAM_UIF :=
  match cur uif.input_query (names st) with
  | Except.ok rp =>
      let uif' := { uif with
        curriculum_level := rp.curriculum_level
        complexity_score := rp.complexity_score
        reasoning_strategy := rp.reasoning_strategy
        estimated_effort := rp.estimated_effort }
      ({ plan := rp.skills
         confidence := rp.confidence_threshold
         reasoning := "Curriculum " ++ rp.curriculum_level ++ ": " ++ rp.reasoning_strategy
         cache_hit := false
         generation_time := 0
         fallback_used := false }, uif')
  | Except.error _ =>
      if st.llm_model.isSome then generate_llm_plan st uif
      else generate_fallback_plan st uif

/-- The strategy-selection step of `create_plan`: the curriculum strategy
when configured, else the LLM strategy when configured, else the rule-based
fallback. -/
def generate_strategy (st : PlannerState) (uif : SAM_UIF) :
    PlanGenerationResult × SAM_UIF :=
  match st.curriculum with
  | some cur => generate_curriculum_plan st uif cur
  | Option.none =>
      if st.llm_model.isSome then generate_llm_plan st uif
      else generate_fallback_plan st uif

/-- `create_plan`: cache lookup, strategy selection
(curriculum → LLM → rule-based), conditional cache store, and the
`except Exception` boundary (the `exc` argument; see the module comment).
Returns the result with the updated planner state and UIF. -/
def create_plan (st : PlannerState) (uif : SAM_UIF) (now : ℤ) (exc : Option String) :
    PlanGenerationResult × PlannerState × SAM_UIF :=
  match exc with
  | some e =>
      ({ plan := get_default_fallback_plan st
         confidence := mkRat 3 10
         reasoning := "Error during generation: " ++ e
         cache_hit := false
         generation_time := 0
         fallback_used := true }, st, uif)
  | Option.none =>
      match (if st.config.enable_plan_caching then check_plan_cache st uif now
             else (Option.none, st)) with
      | (some cached, st₁) =>
          ({ plan := cached.plan
             confidence := cached.confidence
             reasoning := "Retrieved from cache (used " ++ toString cached.usage_count ++ " times)"
             cache_hit := true
             generation_time := 0
             fallback_used := false }, st₁, uif)
      | (Option.none, st₁) =>
          let gen := generate_strategy st₁ uif
          let st₂ :=
            if st₁.config.enable_plan_caching && !gen.1.plan.isEmpty &&
               gen.1.confidence > mkRat 1 2 then
              cache_plan st₁ gen.2 gen.1 now
            else st₁
          ({ gen.1 with generation_time := 0 }, st₂, gen.2)

/-! ## Shared lemmas about the embedded operations -/

theorem alist_get_mem {α : Type} {k : String} {v : α} :
    ∀ {l : List (String × α)}, alist_get k l = some v → (k, v) ∈ l := by
  intro l
  induction l with
  | nil => intro h; simp [alist_get] at h
  | cons p t ih =>
      intro h
      obtain ⟨k₀, w⟩ := p
      by_cases hk : k₀ = k
      · subst hk
        simp [alist_get] at h
        simp [h]
      · simp [alist_get, hk] at h
        exact List.mem_cons_of_mem _ (ih h)

theorem alist_get_isSome_iff {α : Type} {k : String} :
    ∀ {l : List (String × α)}, (alist_get k l).isSome = true ↔ k ∈ l.map Prod.fst := by
  intro l
  induction l with
  | nil => simp [alist_get]
  | cons p t ih =>
      obtain ⟨k₀, w⟩ := p
      by_cases hk : k₀ = k
      · subst hk; simp [alist_get]
      · simp [alist_get, hk, ih, Ne.symm hk]

theorem alist_get_replace {α : Type} (k : String) (v : α) :
    ∀ (t : List (String × α)),
      alist_get k (alist_replace k v t) =
        if (alist_get k t).isSome then some v else Option.none := by
  intro t
  induction t with
  | nil => simp [alist_get, alist_replace]
  | cons p t ih =>
      obtain ⟨k₀, w⟩ := p
      by_cases hk : k₀ = k
      · subst hk; simp [alist_get, alist_replace]
      · simp [alist_get, alist_replace, hk, ih]

theorem alist_get_append_single {α : Type} (k : String) (v : α) :
    ∀ (t : List (String × α)), alist_get k (t ++ [(k, v)]) =
      if (alist_get k t).isSome then alist_get k t else some v := by
  intro t
  induction t with
  | nil => simp [alist_get]
  | cons p t ih =>
      obtain ⟨k₀, w⟩ := p
      by_cases hk : k₀ = k
      · subst hk; simp [alist_get]
      · simp [alist_get, hk, ih]

theorem alist_get_set_self {α : Type} (k : String) (v : α)
    (d : List (String × α)) : alist_get k (alist_set k v d) = some v := by
  unfold alist_set
  by_cases h : (alist_get k d).isSome
  · simp [h, alist_get_replace]
  · simp [h, alist_get_append_single]

theorem alist_get_replace_ne {α : Type} {k k₁ : String} (h : k ≠ k₁) (v : α) :
    ∀ (t : List (String × α)),
      alist_get k (alist_replace k₁ v t) = alist_get k t := by
  intro t
  induction t with
  | nil => simp [alist_replace]
  | cons p t ih =>
      obtain ⟨k₀, w⟩ := p
      by_cases hk : k₀ = k₁
      · subst hk
        simp [alist_get, alist_replace, Ne.symm h, ih]
      · by_cases hk2 : k₀ = k
        · subst hk2; simp [alist_get, alist_replace, hk]
        · simp [alist_get, alist_replace, hk, hk2, ih]

theorem alist_get_append_single_ne {α : Type} {k k₁ : String} (h : k ≠ k₁) (v : α) :
    ∀ (t : List (String × α)), alist_get k (t ++ [(k₁, v)]) = alist_get k t := by
  intro t
  induction t with
  | nil => simp [alist_get, Ne.symm h]
  | cons p t ih =>
      obtain ⟨k₀, w⟩ := p
      by_cases hk : k₀ = k
      · subst hk; simp [alist_get]
      · simp [alist_get, hk, ih]

theorem alist_get_set_ne {α : Type} {k k₁ : String} (h : k ≠ k₁) (v : α)
    (d : List (String × α)) : alist_get k (alist_set k₁ v d) = alist_get k d := by
  unfold alist_set
  by_cases hs : (alist_get k₁ d).isSome
  · simp [hs, alist_get_replace_ne h]
  · simp [hs, alist_get_append_single_ne h]

theorem skill_registered_iff {st : PlannerState} {s : String} :
    skill_registered st s = true ↔ s ∈ names st := by
  unfold skill_registered names
  exact alist_get_isSome_iff

theorem get_default_fallback_plan_ne_nil (st : PlannerState) :
    get_default_fallback_plan st ≠ [] := by
  unfold get_default_fallback_plan
  by_cases h :
      (["MemoryRetrievalSkill", "ResponseGenerationSkill"].filter
        (fun n => skill_registered st n)) = []
  · simp [h]
  · simp [h]

theorem generate_fallback_plan_plan_eq (st : PlannerState) (uif : SAM_UIF) :
    (generate_fallback_plan st uif).1.plan =
      if fallback_stage_plan st uif = [] then get_default_fallback_plan st
      else fallback_stage_plan st uif := by
  unfold generate_fallback_plan
  by_cases h : fallback_stage_plan st uif = [] <;> simp [h]

theorem generate_fallback_plan_ne_nil (st : PlannerState) (uif : SAM_UIF) :
    (generate_fallback_plan st uif).1.plan ≠ [] := by
  rw [generate_fallback_plan_plan_eq]
  by_cases h : fallback_stage_plan st uif = []
  · simp [h, get_default_fallback_plan_ne_nil st]
  · simp [h]

theorem retrieval_mode_graph_database {st : PlannerState} {q : String}
    (h : determine_retrieval_mode st q = "GRAPH" ∨
         determine_retrieval_mode st q = "HYBRID") :
    st.graph_database = true := by
  cases hg : st.graph_database with
  | true => rfl
  | false =>
      rw [determine_retrieval_mode, hg] at h
      simp at h

theorem generate_fallback_plan_uif (st : PlannerState) (uif : SAM_UIF) :
    (generate_fallback_plan st uif).2 =
      (memory_stage st uif (lower_string uif.input_query)).2.2 := rfl

/-! ## Concrete fixtures for witnesses and counterexamples -/

/-- A minimal skill value used in concrete planner states. -/
def mk_skill (n v : String) : Skill :=
  { skill_name := n, skill_description := "test skill", required_inputs := [],
    output_keys := [], skill_category := "core", skill_version := v }

/-- A configuration with caching on, a 300-second TTL and plan length cap 10. -/
def base_config : SOFConfig :=
  { enable_plan_caching := true, plan_cache_ttl := 300, max_plan_length := 10 }

/-- An empty planner: no skills, no cache, no collaborators, no graph DB. -/
def base_state : PlannerState :=
  { config := base_config, registered_skills := [], plan_cache := [],
    curriculum := Option.none, llm_model := Option.none, graph_database := false,
    json_loads := fun _ => Except.error "invalid json" }

/-- The empty planner with a graph database available. -/
def graph_state : PlannerState :=
  { base_state with graph_database := true }

/-- The graph-aware planner with the memory-retrieval skill registered. -/
def mem_state : PlannerState :=
  register_skill graph_state (mk_skill "MemoryRetrievalSkill" "1.0")

/-- A fresh UIF carrying the given query. -/
def base_uif (q : String) : SAM_UIF :=
  { input_query := q, active_profile := "default", user_context := [],
    intermediate_data := [], curriculum_level := "", complexity_score := 0,
    reasoning_strategy := "", estimated_effort := 0 }

/-! ## C7 — retrieval-mode tie-break -/

/-- **C7.** For every query the rule-based retrieval-mode classification obeys
the tie-break rules: hybrid score > 0, or both graph and vector scores > 0,
gives HYBRID; otherwise graph score > vector score gives GRAPH; otherwise
vector score > 0 gives VECTOR; otherwise AUTO — and whenever no graph backend
is available the mode is VECTOR regardless of all scores. -/
theorem C7_retrieval_mode_tiebreak (st : PlannerState) (q : String) :
    (st.graph_database = false → determine_retrieval_mode st q = "VECTOR") ∧
    (st.graph_database = true →
      determine_retrieval_mode st q =
        if 0 < indicator_score hybrid_indicators q ∨
            (0 < indicator_score graph_indicators q ∧
             0 < indicator_score vector_indicators q) then "HYBRID"
        else if indicator_score vector_indicators q <
            indicator_score graph_indicators q then "GRAPH"
        else if 0 < indicator_score vector_indicators q then "VECTOR"
        else "AUTO") := by
  constructor
  · intro h
    rw [determine_retrieval_mode, h]
    simp
  · intro h
    rw [determine_retrieval_mode, h]
    simp only [Bool.not_true, Bool.false_eq_true, if_false, Bool.or_eq_true,
      Bool.and_eq_true, decide_eq_true_eq, gt_iff_lt]

/-- Witness for C7 at concrete inputs: no graph backend forces VECTOR, and a
hybrid-indicator query yields HYBRID. -/
theorem C7_witness :
    determine_retrieval_mode base_state "how is x" = "VECTOR" ∧
    determine_retrieval_mode graph_state "explain x" = "HYBRID" := by
  constructor
  · exact (C7_retrieval_mode_tiebreak base_state "how is x").1 rfl
  · have h := (C7_retrieval_mode_tiebreak graph_state "explain x").2 rfl
    rw [h]
    decide

/-! ## C8 — traversal-depth classification -/

/-- **C8.** Traversal-depth classification: (1) the depth is 4 on a
deep-indicator match, else 3 on a multi-hop match, else 1 on a simple match,
else 2; (2) the depth always lies in 1–4; (3) when the chosen mode is neither
GRAPH nor HYBRID the rule-based planner writes no `graph_depth` into the
search context (provided the incoming context had none); (4) when the mode is
GRAPH or HYBRID, the graph database is available and the memory-retrieval
skill is registered, the written search context carries `graph_depth` equal
to the classified depth. -/
theorem C8_graph_depth_classification (st : PlannerState) (uif : SAM_UIF) (q : String) :
    (determine_graph_depth q =
      if 0 < indicator_score deep_indicators q then 4
      else if 0 < indicator_score depth_multi_hop_indicators q then 3
      else if 0 < indicator_score simple_indicators q then 1
      else 2) ∧
    (1 ≤ determine_graph_depth q ∧ determine_graph_depth q ≤ 4) ∧
    ((alist_get "graph_depth" (read_search_context uif)).isNone = true →
      determine_retrieval_mode st (lower_string uif.input_query) ≠ "GRAPH" →
      determine_retrieval_mode st (lower_string uif.input_query) ≠ "HYBRID" →
      ∀ sc, alist_get "search_context"
          (generate_fallback_plan st uif).2.intermediate_data = some (PyVal.dict sc) →
        (alist_get "graph_depth" sc).isNone = true) ∧
    (skill_registered st "MemoryRetrievalSkill" = true →
      (determine_retrieval_mode st (lower_string uif.input_query) = "GRAPH" ∨
       determine_retrieval_mode st (lower_string uif.input_query) = "HYBRID") →
      alist_get "search_context" (generate_fallback_plan st uif).2.intermediate_data =
        some (PyVal.dict (memory_stage_context st uif (lower_string uif.input_query))) ∧
      alist_get "graph_depth" (memory_stage_context st uif (lower_string uif.input_query)) =
        some (PyVal.num (determine_graph_depth (lower_string uif.input_query)))) := by
  refine ⟨?_, ?_, ?_, ?_⟩
  · rw [determine_graph_depth]
  · rw [determine_graph_depth]
    split_ifs <;> omega
  · intro hnone hG hH sc hsc
    rw [generate_fallback_plan_uif] at hsc
    rw [memory_stage] at hsc
    by_cases hM : skill_registered st "MemoryRetrievalSkill"
    · rw [if_pos hM] at hsc
      simp only at hsc
      rw [alist_get_set_self] at hsc
      have hctx : memory_stage_context st uif (lower_string uif.input_query) = sc := by
        injection hsc with h1
        injection h1
      rw [memory_stage_context] at hctx
      have hcond :
          ((determine_retrieval_mode st (lower_string uif.input_query) = "GRAPH" ||
            determine_retrieval_mode st (lower_string uif.input_query) = "HYBRID") &&
            st.graph_database) = false := by
        simp [hG, hH]
      rw [hcond] at hctx
      simp only [Bool.false_eq_true, if_false] at hctx
      rw [← hctx]
      rw [alist_get_set_ne (by decide)]
      exact hnone
    · rw [if_neg hM] at hsc
      simp only at hsc
      have : read_search_context uif = sc := by
        rw [read_search_context, hsc]
      rw [← this]
      exact hnone
  · intro hM hmode
    have hdb : st.graph_database = true := retrieval_mode_graph_database hmode
    constructor
    · rw [generate_fallback_plan_uif, memory_stage, if_pos hM]
      simp only
      rw [alist_get_set_self]
    · rw [memory_stage_context]
      have hcond :
          ((determine_retrieval_mode st (lower_string uif.input_query) = "GRAPH" ||
            determine_retrieval_mode st (lower_string uif.input_query) = "HYBRID") &&
            st.graph_database) = true := by
        rcases hmode with h | h <;> simp [h, hdb]
      rw [hcond]
      simp only [if_true]
      rw [alist_get_set_ne (by decide), alist_get_set_self]

/-- Witness for C8 at concrete inputs: a multi-hop query classifies at depth
3; no `graph_depth` is written for an AUTO-mode query; `graph_depth` is
written for a GRAPH-mode query. -/
theorem C8_witness :
    determine_graph_depth "step by step" = 3 ∧
    (1 ≤ determine_graph_depth "zzz" ∧ determine_graph_depth "zzz" ≤ 4) ∧
    (alist_get "graph_depth" [("retrieval_mode", PyVal.str "AUTO")]).isNone = true ∧
    (alist_get "search_context"
        (generate_fallback_plan mem_state (base_uif "how does x")).2.intermediate_data =
      some (PyVal.dict (memory_stage_context mem_state (base_uif "how does x")
        (lower_string "how does x"))) ∧
     alist_get "graph_depth"
        (memory_stage_context mem_state (base_uif "how does x") (lower_string "how does x")) =
      some (PyVal.num (determine_graph_depth (lower_string "how does x")))) := by
  refine ⟨?_, ?_, ?_, ?_⟩
  · have h := (C8_graph_depth_classification mem_state (base_uif "zzz") "step by step").1
    rw [h]
    decide
  · exact (C8_graph_depth_classification mem_state (base_uif "zzz") "zzz").2.1
  · exact (C8_graph_depth_classification mem_state (base_uif "zzz") "zzz").2.2.1
      (by decide) (by decide) (by decide)
      [("retrieval_mode", PyVal.str "AUTO")] (by rfl)
  · exact (C8_graph_depth_classification mem_state (base_uif "how does x") "zzz").2.2.2
      (by decide) (Or.inl (by decide))

/-! ## C9 — minimal default plan -/

/-- **C9 (amended).** The default fallback plan is the memory-retrieval skill
(if registered) followed by the response-generation skill (if registered),
and `["ResponseGenerationSkill"]` when neither is registered — never the
empty plan; accordingly, when stages 1–5 of the rule-based planner select no
skill, the returned plan is `["ResponseGenerationSkill"]` (even though that
skill is then unregistered), not the empty plan. -/
theorem C9_minimal_default_plan (st : PlannerState) (uif : SAM_UIF) :
    (get_default_fallback_plan st =
      if skill_registered st "MemoryRetrievalSkill" then
        if skill_registered st "ResponseGenerationSkill" then
          ["MemoryRetrievalSkill", "ResponseGenerationSkill"]
        else ["MemoryRetrievalSkill"]
      else
        if skill_registered st "ResponseGenerationSkill" then
          ["ResponseGenerationSkill"]
        else ["ResponseGenerationSkill"]) ∧
    (generate_fallback_plan st uif).1.plan ≠ [] ∧
    (skill_registered st "MemoryRetrievalSkill" = false →
     skill_registered st "ResponseGenerationSkill" = false →
     (conflict_stage st (lower_string uif.input_query)).1 = [] →
     (multihop_stage st (lower_string uif.input_query)).1 = [] →
     (generate_fallback_plan st uif).1.plan = ["ResponseGenerationSkill"]) := by
  refine ⟨?_, generate_fallback_plan_ne_nil st uif, ?_⟩
  · rw [get_default_fallback_plan]
    by_cases hM : skill_registered st "MemoryRetrievalSkill" <;>
      by_cases hR : skill_registered st "ResponseGenerationSkill" <;>
        simp [List.filter_cons, hM, hR]
  · intro hM hR hC hH
    have hstage : fallback_stage_plan st uif = [] := by
      rw [fallback_stage_plan]
      rw [memory_stage, if_neg (by rw [hM]; exact Bool.false_ne_true),
        response_stage, if_neg (by rw [hR]; exact Bool.false_ne_true), hC, hH]
      rfl
    rw [generate_fallback_plan_plan_eq, if_pos hstage, get_default_fallback_plan]
    simp [List.filter_cons, hM, hR]

/-- Witness for C9: with an empty registry and a neutral query, the
rule-based planner returns `["ResponseGenerationSkill"]`. -/
theorem C9_witness :
    (generate_fallback_plan base_state (base_uif "hello")).1.plan =
      ["ResponseGenerationSkill"] := by
  exact (C9_minimal_default_plan base_state (base_uif "hello")).2.2
    (by decide) (by decide) (by decide) (by decide)

/-- Counterexample to C9 as stated: with neither core skill registered the
code returns `["ResponseGenerationSkill"]`, not the empty plan the claim
describes. -/
theorem C9_counterexample :
    names base_state = [] ∧
    (generate_fallback_plan base_state (base_uif "hello")).1.plan =
      ["ResponseGenerationSkill"] ∧
    (["ResponseGenerationSkill"] : List String) ≠ [] := by
  refine ⟨rfl, ?_, by decide⟩
  rw [generate_fallback_plan_plan_eq, if_pos (by decide), get_default_fallback_plan]
  decide

/-! ## C2 — validator rejections -/

theorem parse_none_of_validate_false {st : PlannerState} {response js : String}
    {v : PyVal} (hjs : extract_json_str response = some js)
    (hok : st.json_loads js = Except.ok v)
    (hval : validate_generated_plan st v = false) :
    parse_llm_response st response = Option.none := by
  simp [parse_llm_response, decode_and_validate, hjs, hok, hval]

theorem validate_false_of_no_plan {st : PlannerState} {v : PyVal}
    (hv : ∀ kvs, v = PyVal.dict kvs → ∀ l, alist_get "plan" kvs ≠ some (PyVal.list l)) :
    validate_generated_plan st v = false := by
  cases v with
  | dict kvs =>
      simp only [validate_generated_plan]
      cases hp : alist_get "plan" kvs with
      | none => rfl
      | some w =>
          cases w with
          | list l => exact absurd hp (hv kvs rfl l)
          | null => rfl
          | bool b => rfl
          | num q => rfl
          | str s => rfl
          | dict d => rfl
  | null => rfl
  | bool b => rfl
  | num q => rfl
  | str s => rfl
  | list l => rfl

theorem validate_eq_of_plan {st : PlannerState} {kvs : List (String × PyVal)}
    {l : List PyVal} (hl : alist_get "plan" kvs = some (PyVal.list l)) :
    validate_generated_plan st (PyVal.dict kvs) =
      (l.all (plan_elem_registered st) &&
        decide (l.length ≤ st.config.max_plan_length)) := by
  simp only [validate_generated_plan]
  rw [hl]

/-- **C2.** The validator returns null (and never raises — it is a total
function into `Option`, every decoding error being caught): when the stripped
response contains no opening or no closing brace; when the extracted
substring fails to decode; when the decoded value has no `plan` list; when
some plan element is not the name of a registered skill (the whole candidate
is rejected); and when the plan exceeds the configured maximum length. -/
theorem C2_validator_rejects (st : PlannerState) (response : String) :
    (find_idx '{' (strip_chars response.data) = -1 ∨
       rfind_idx '}' (strip_chars response.data) = -1 →
     parse_llm_response st response = Option.none) ∧
    (∀ js e, extract_json_str response = some js →
       st.json_loads js = Except.error e →
     parse_llm_response st response = Option.none) ∧
    (∀ js v, extract_json_str response = some js →
       st.json_loads js = Except.ok v →
       (∀ kvs, v = PyVal.dict kvs →
         ∀ l, alist_get "plan" kvs ≠ some (PyVal.list l)) →
     parse_llm_response st response = Option.none) ∧
    (∀ js kvs l x, extract_json_str response = some js →
       st.json_loads js = Except.ok (PyVal.dict kvs) →
       alist_get "plan" kvs = some (PyVal.list l) →
       x ∈ l →
       (∀ s, x = PyVal.str s → skill_registered st s = false) →
     parse_llm_response st response = Option.none) ∧
    (∀ js kvs l, extract_json_str response = some js →
       st.json_loads js = Except.ok (PyVal.dict kvs) →
       alist_get "plan" kvs = some (PyVal.list l) →
       st.config.max_plan_length < l.length →
     parse_llm_response st response = Option.none) := by
  refine ⟨?_, ?_, ?_, ?_, ?_⟩
  · intro h
    have he : extract_json_str response = Option.none := by
      rw [extract_json_str]
      rcases h with h | h
      · rw [h]
        rw [if_neg]
        omega
      · rw [h]
        rw [if_neg]
        omega
    simp [parse_llm_response, he]
  · intro js e hjs herr
    simp [parse_llm_response, decode_and_validate, hjs, herr]
  · intro js v hjs hok hv
    exact parse_none_of_validate_false hjs hok (validate_false_of_no_plan hv)
  · intro js kvs l x hjs hok hl hx hbad
    refine parse_none_of_validate_false hjs hok ?_
    rw [validate_eq_of_plan hl]
    have hall : l.all (plan_elem_registered st) = false := by
      rw [Bool.eq_false_iff]
      intro hcontra
      rw [List.all_eq_true] at hcontra
      have hxok := hcontra x hx
      cases x with
      | str s =>
          rw [plan_elem_registered, hbad s rfl] at hxok
          exact Bool.false_ne_true hxok
      | null => exact Bool.false_ne_true hxok
      | bool b => exact Bool.false_ne_true hxok
      | num q => exact Bool.false_ne_true hxok
      | list m => exact Bool.false_ne_true hxok
      | dict d => exact Bool.false_ne_true hxok
    rw [hall, Bool.false_and]
  · intro js kvs l hjs hok hl hlen
    refine parse_none_of_validate_false hjs hok ?_
    rw [validate_eq_of_plan hl]
    have hdec : decide (l.length ≤ st.config.max_plan_length) = false := by
      rw [decide_eq_false_iff_not]
      omega
    rw [hdec, Bool.and_false]

/-- A JSON decoder fixed on the handful of strings exercised by the C2 and C5
scenarios, matching `json.loads` on those inputs. -/
def c2_loads : String → Except String PyVal := fun s =>
  if s = "\x7bbad\x7d" then Except.error "Expecting value"
  else if s = "\x7b\"a\": 1\x7d" then Except.ok (PyVal.dict [("a", PyVal.num 1)])
  else if s = "\x7b\"plan\": [\"UnknownSkill\"]\x7d" then
    Except.ok (PyVal.dict [("plan", PyVal.list [PyVal.str "UnknownSkill"])])
  else if s = "\x7b\"plan\": [\"ResponseGenerationSkill\", \"ResponseGenerationSkill\"]\x7d" then
    Except.ok (PyVal.dict [("plan",
      PyVal.list [PyVal.str "ResponseGenerationSkill", PyVal.str "ResponseGenerationSkill"])])
  else Except.error "Expecting value"

/-- State for the C2 witness: `ResponseGenerationSkill` registered, maximum
plan length 1, decoder `c2_loads`. -/
def c2_state : PlannerState :=
  { config := { enable_plan_caching := false, plan_cache_ttl := 300, max_plan_length := 1 }
    registered_skills := [("ResponseGenerationSkill", mk_skill "ResponseGenerationSkill" "1.0")]
    plan_cache := []
    curriculum := Option.none
    llm_model := Option.none
    graph_database := false
    json_loads := c2_loads }

/-- Witness for C2: each rejection case at a concrete response. -/
theorem C2_witness :
    parse_llm_response c2_state "no json here" = Option.none ∧
    parse_llm_response c2_state "\x7bbad\x7d" = Option.none ∧
    parse_llm_response c2_state "\x7b\"a\": 1\x7d" = Option.none ∧
    parse_llm_response c2_state "\x7b\"plan\": [\"UnknownSkill\"]\x7d" = Option.none ∧
    parse_llm_response c2_state
      "\x7b\"plan\": [\"ResponseGenerationSkill\", \"ResponseGenerationSkill\"]\x7d" =
      Option.none := by
  refine ⟨?_, ?_, ?_, ?_, ?_⟩
  · exact (C2_validator_rejects c2_state "no json here").1 (Or.inl (by decide))
  · exact (C2_validator_rejects c2_state "\x7bbad\x7d").2.1 "\x7bbad\x7d"
      "Expecting value" (by decide) rfl
  · refine (C2_validator_rejects c2_state "\x7b\"a\": 1\x7d").2.2.1 "\x7b\"a\": 1\x7d"
      (PyVal.dict [("a", PyVal.num 1)]) (by decide) rfl ?_
    intro kvs hk l
    cases hk
    intro hc
    simp [alist_get] at hc
  · refine (C2_validator_rejects c2_state "\x7b\"plan\": [\"UnknownSkill\"]\x7d").2.2.2.1
      "\x7b\"plan\": [\"UnknownSkill\"]\x7d" [("plan", PyVal.list [PyVal.str "UnknownSkill"])]
      [PyVal.str "UnknownSkill"] (PyVal.str "UnknownSkill") (by decide) rfl rfl
      (List.mem_singleton_self _) ?_
    intro s hs
    cases hs
    rfl
  · exact (C2_validator_rejects c2_state
        "\x7b\"plan\": [\"ResponseGenerationSkill\", \"ResponseGenerationSkill\"]\x7d").2.2.2.2
      "\x7b\"plan\": [\"ResponseGenerationSkill\", \"ResponseGenerationSkill\"]\x7d"
      [("plan", PyVal.list [PyVal.str "ResponseGenerationSkill",
        PyVal.str "ResponseGenerationSkill"])]
      [PyVal.str "ResponseGenerationSkill", PyVal.str "ResponseGenerationSkill"]
      (by decide) rfl rfl (by decide)

/-! ## Case lemmas for the cache and `create_plan` -/

theorem check_plan_cache_none {st : PlannerState} {uif : SAM_UIF} {now : ℤ}
    (h : alist_get (generate_query_hash st uif) st.plan_cache = Option.none) :
    check_plan_cache st uif now = (Option.none, st) := by
  simp [check_plan_cache, h]

theorem check_plan_cache_invalid {st : PlannerState} {uif : SAM_UIF} {now : ℤ}
    {entry : PlanCacheEntry}
    (h : alist_get (generate_query_hash st uif) st.plan_cache = some entry)
    (hv : is_cache_entry_valid st now entry = false) :
    check_plan_cache st uif now =
      (Option.none,
       { st with plan_cache := alist_erase (generate_query_hash st uif) st.plan_cache }) := by
  simp [check_plan_cache, h, hv]

theorem check_plan_cache_valid {st : PlannerState} {uif : SAM_UIF} {now : ℤ}
    {entry : PlanCacheEntry}
    (h : alist_get (generate_query_hash st uif) st.plan_cache = some entry)
    (hv : is_cache_entry_valid st now entry = true) :
    check_plan_cache st uif now =
      (some (bump_entry entry),
       { st with plan_cache :=
           alist_set (generate_query_hash st uif) (bump_entry entry) st.plan_cache }) := by
  simp [check_plan_cache, h, hv]

theorem check_plan_cache_some {st : PlannerState} {uif : SAM_UIF} {now : ℤ}
    {entry : PlanCacheEntry} {st' : PlannerState}
    (h : check_plan_cache st uif now = (some entry, st')) :
    ∃ e₀, alist_get (generate_query_hash st uif) st.plan_cache = some e₀ ∧
      is_cache_entry_valid st now e₀ = true ∧
      entry = bump_entry e₀ ∧
      st' = { st with plan_cache :=
                alist_set (generate_query_hash st uif) (bump_entry e₀) st.plan_cache } := by
  cases hg : alist_get (generate_query_hash st uif) st.plan_cache with
  | none =>
      rw [check_plan_cache_none hg] at h
      exact absurd h (by simp)
  | some e₀ =>
      by_cases hv : is_cache_entry_valid st now e₀ = true
      · rw [check_plan_cache_valid hg hv] at h
        simp only [Prod.mk.injEq] at h
        obtain ⟨h1, h2⟩ := h
        exact ⟨e₀, rfl, hv, (Option.some.inj h1).symm, h2.symm⟩
      · rw [check_plan_cache_invalid hg (Bool.eq_false_iff.mpr hv)] at h
        exact absurd h (by simp)

theorem check_plan_cache_shape {st : PlannerState} {uif : SAM_UIF} {now : ℤ}
    {r : Option PlanCacheEntry} {st' : PlannerState}
    (h : check_plan_cache st uif now = (r, st')) :
    ∃ pc, st' = { st with plan_cache := pc } := by
  cases hg : alist_get (generate_query_hash st uif) st.plan_cache with
  | none =>
      rw [check_plan_cache_none hg] at h
      simp only [Prod.mk.injEq] at h
      exact ⟨st.plan_cache, h.2.symm⟩
  | some e₀ =>
      by_cases hv : is_cache_entry_valid st now e₀ = true
      · rw [check_plan_cache_valid hg hv] at h
        simp only [Prod.mk.injEq] at h
        exact ⟨_, h.2.symm⟩
      · rw [check_plan_cache_invalid hg (Bool.eq_false_iff.mpr hv)] at h
        simp only [Prod.mk.injEq] at h
        exact ⟨_, h.2.symm⟩

theorem create_plan_exc (st : PlannerState) (uif : SAM_UIF) (now : ℤ) (e : String) :
    create_plan st uif now (some e) =
      ({ plan := get_default_fallback_plan st
         confidence := mkRat 3 10
         reasoning := "Error during generation: " ++ e
         cache_hit := false
         generation_time := 0
         fallback_used := true }, st, uif) := rfl

theorem create_plan_hit {st : PlannerState} {uif : SAM_UIF} {now : ℤ}
    {entry : PlanCacheEntry} {st₁ : PlannerState}
    (h : check_plan_cache st uif now = (some entry, st₁))
    (hen : st.config.enable_plan_caching = true) :
    create_plan st uif now Option.none =
      ({ plan := entry.plan
         confidence := entry.confidence
         reasoning := "Retrieved from cache (used " ++ toString entry.usage_count ++ " times)"
         cache_hit := true
         generation_time := 0
         fallback_used := false }, st₁, uif) := by
  simp [create_plan, hen, h]

theorem create_plan_miss {st : PlannerState} {uif : SAM_UIF} {now : ℤ}
    {st₁ : PlannerState}
    (hen : st.config.enable_plan_caching = true)
    (h : check_plan_cache st uif now = (Option.none, st₁)) :
    create_plan st uif now Option.none =
      ({ (generate_strategy st₁ uif).1 with generation_time := 0 },
       (if st₁.config.enable_plan_caching &&
           !(generate_strategy st₁ uif).1.plan.isEmpty &&
           (generate_strategy st₁ uif).1.confidence > mkRat 1 2 then
          cache_plan st₁ (generate_strategy st₁ uif).2 (generate_strategy st₁ uif).1 now
        else st₁),
       (generate_strategy st₁ uif).2) := by
  simp [create_plan, hen, h]

theorem create_plan_nocache {st : PlannerState} {uif : SAM_UIF} {now : ℤ}
    (hen : st.config.enable_plan_caching = false) :
    create_plan st uif now Option.none =
      ({ (generate_strategy st uif).1 with generation_time := 0 }, st,
       (generate_strategy st uif).2) := by
  simp [create_plan, hen]

/-! ## C1 — the exception boundary of `create_plan` -/

/-- **C1 (amended).** `create_plan` always returns a `PlanGenerationResult`
(the embedding is a total function — no exception ever reaches the caller),
and whenever an exception escapes the inner strategy handlers to the
`create_plan` boundary, the result is exactly the registry's default fallback
plan with confidence 0.3, `fallbackUsed = true`, `cacheHit = false`, and a
reasoning string recording the exception cause; exceptions raised inside the
curriculum or model strategies are caught there and degrade to the next
strategy instead of producing the 0.3 result. -/
theorem C1_boundary_fallback (st : PlannerState) (uif : SAM_UIF) (now : ℤ) (e : String) :
    create_plan st uif now (some e) =
      ({ plan := get_default_fallback_plan st
         confidence := mkRat 3 10
         reasoning := "Error during generation: " ++ e
         cache_hit := false
         generation_time := 0
         fallback_used := true }, st, uif) := rfl

/-- State for the C1 counterexample: a curriculum collaborator that raises on
every input, no LLM, caching off, `ResponseGenerationSkill` registered. -/
def c1_state : PlannerState :=
  { config := { enable_plan_caching := false, plan_cache_ttl := 300, max_plan_length := 10 }
    registered_skills := [("ResponseGenerationSkill", mk_skill "ResponseGenerationSkill" "1.0")]
    plan_cache := []
    curriculum := some (fun _ _ => Except.error "curriculum failure")
    llm_model := Option.none
    graph_database := false
    json_loads := fun _ => Except.error "invalid json" }

/-- Counterexample to C1 as stated: an exception raised during generation
(the curriculum collaborator raises) is caught inside the strategy chain, and
the returned result is the rule-based plan with confidence 0.6 — not the
confidence-0.3 default-fallback result the claim requires whenever an
exception is raised anywhere during generation. -/
theorem C1_counterexample :
    c1_state.curriculum = some (fun _ _ => Except.error "curriculum failure") ∧
    (create_plan c1_state (base_uif "hello") 0 Option.none).1.confidence = mkRat 6 10 ∧
    (create_plan c1_state (base_uif "hello") 0 Option.none).1.fallback_used = true ∧
    mkRat 6 10 ≠ mkRat 3 10 := by
  refine ⟨rfl, rfl, rfl, by decide⟩

/-! ## Confidence bounds of every strategy (C5) -/

theorem parse_llm_response_some {st : PlannerState} {r : String} {v : PyVal}
    (h : parse_llm_response st r = some v) :
    ∃ js, extract_json_str r = some js ∧ st.json_loads js = Except.ok v ∧
      validate_generated_plan st v = true := by
  unfold parse_llm_response at h
  cases he : extract_json_str r with
  | none => rw [he] at h; exact absurd h (by simp)
  | some js =>
      rw [he] at h
      simp only at h
      unfold decode_and_validate at h
      cases hl : st.json_loads js with
      | error e => rw [hl] at h; exact absurd h (by simp)
      | ok pd =>
          rw [hl] at h
          simp only at h
          by_cases hv : validate_generated_plan st pd = true
          · rw [if_pos hv] at h
            exact ⟨js, rfl, (Option.some.inj h) ▸ hl, (Option.some.inj h) ▸ hv⟩
          · rw [if_neg hv] at h
            exact absurd h (by simp)

theorem generate_fallback_plan_confidence (st : PlannerState) (uif : SAM_UIF) :
    (generate_fallback_plan st uif).1.confidence = mkRat 6 10 := rfl

theorem fallback_confidence_bounds (st : PlannerState) (uif : SAM_UIF) :
    0 ≤ (generate_fallback_plan st uif).1.confidence ∧
      (generate_fallback_plan st uif).1.confidence ≤ 1 := by
  rw [generate_fallback_plan_confidence]
  constructor <;> decide

theorem generate_llm_plan_confidence_bounds (st : PlannerState) (uif : SAM_UIF)
    (hllm : ∀ s v, st.json_loads s = Except.ok v →
      0 ≤ dict_get_num v "confidence" (mkRat 8 10) ∧
        dict_get_num v "confidence" (mkRat 8 10) ≤ 1) :
    0 ≤ (generate_llm_plan st uif).1.confidence ∧
      (generate_llm_plan st uif).1.confidence ≤ 1 := by
  unfold generate_llm_plan
  cases hm : st.llm_model with
  | none => exact fallback_confidence_bounds st uif
  | some gen =>
      simp only
      cases hr : gen (create_planning_prompt st uif) (mkRat 3 10) 500 with
      | error e => exact fallback_confidence_bounds st uif
      | ok response =>
          simp only
          cases hp : parse_llm_response st response with
          | none => exact fallback_confidence_bounds st uif
          | some pd =>
              simp only
              by_cases hne : (plan_field_list pd).isEmpty
              · rw [if_neg (by rw [hne]; exact Bool.false_ne_true)]
                exact fallback_confidence_bounds st uif
              · rw [if_pos (by rw [Bool.eq_false_iff.mpr hne]; rfl)]
                obtain ⟨js, _, hl, _⟩ := parse_llm_response_some hp
                exact hllm js pd hl

theorem generate_strategy_confidence_bounds (st : PlannerState) (uif : SAM_UIF)
    (hcur : ∀ cur, st.curriculum = some cur → ∀ q sk rp, cur q sk = Except.ok rp →
      0 ≤ rp.confidence_threshold ∧ rp.confidence_threshold ≤ 1)
    (hllm : ∀ s v, st.json_loads s = Except.ok v →
      0 ≤ dict_get_num v "confidence" (mkRat 8 10) ∧
        dict_get_num v "confidence" (mkRat 8 10) ≤ 1) :
    0 ≤ (generate_strategy st uif).1.confidence ∧
      (generate_strategy st uif).1.confidence ≤ 1 := by
  unfold generate_strategy
  cases hc : st.curriculum with
  | none =>
      simp only
      by_cases hl : st.llm_model.isSome
      · rw [if_pos hl]
        exact generate_llm_plan_confidence_bounds st uif hllm
      · rw [if_neg hl]
        exact fallback_confidence_bounds st uif
  | some cur =>
      simp only
      unfold generate_curriculum_plan
      cases hr : cur uif.input_query (names st) with
      | ok rp =>
          simp only
          exact hcur cur hc uif.input_query (names st) rp hr
      | error e =>
          simp only
          by_cases hl : st.llm_model.isSome
          · rw [if_pos hl]
            exact generate_llm_plan_confidence_bounds st uif hllm
          · rw [if_neg hl]
            exact fallback_confidence_bounds st uif

theorem bump_entry_confidence (e : PlanCacheEntry) :
    (bump_entry e).confidence = e.confidence := rfl

/-! ## C5 — confidence range -/

/-- **C5 (amended).** Every result of `create_plan` has confidence in [0,1]
provided the collaborator-supplied values do: the fixed-constant paths
(rule-based 0.6, error fallback 0.3, the 0.8 default when the model's JSON
has no numeric confidence) are always in range; a cache hit inherits the
cached confidence; the model path passes the parsed JSON `confidence` field
through unclamped and the curriculum path uses the collaborator's
`confidence_threshold` unclamped, so those lie in [0,1] exactly when the
collaborator's values do. -/
theorem C5_confidence_bounds (st : PlannerState) (uif : SAM_UIF) (now : ℤ)
    (exc : Option String)
    (hcache : ∀ k entry, (k, entry) ∈ st.plan_cache →
      0 ≤ entry.confidence ∧ entry.confidence ≤ 1)
    (hcur : ∀ cur, st.curriculum = some cur → ∀ q sk rp, cur q sk = Except.ok rp →
      0 ≤ rp.confidence_threshold ∧ rp.confidence_threshold ≤ 1)
    (hllm : ∀ s v, st.json_loads s = Except.ok v →
      0 ≤ dict_get_num v "confidence" (mkRat 8 10) ∧
        dict_get_num v "confidence" (mkRat 8 10) ≤ 1) :
    0 ≤ (create_plan st uif now exc).1.confidence ∧
      (create_plan st uif now exc).1.confidence ≤ 1 := by
  cases exc with
  | some e =>
      rw [create_plan_exc]
      constructor
      · show (0 : ℚ) ≤ mkRat 3 10
        decide
      · show (mkRat 3 10 : ℚ) ≤ 1
        decide
  | none =>
      by_cases hen : st.config.enable_plan_caching = true
      · rcases hchk : check_plan_cache st uif now with ⟨r, st₁⟩
        cases r with
        | some entry =>
            rw [create_plan_hit hchk hen]
            obtain ⟨e₀, hg, _, hbump, _⟩ := check_plan_cache_some hchk
            have hb := hcache _ e₀ (alist_get_mem hg)
            rw [hbump]
            simp only [bump_entry_confidence]
            exact hb
        | none =>
            rw [create_plan_miss hen hchk]
            obtain ⟨pc, hst₁⟩ := check_plan_cache_shape hchk
            subst hst₁
            exact generate_strategy_confidence_bounds _ uif
              (fun cur hc q sk rp hr => hcur cur hc q sk rp hr)
              (fun s v hl => hllm s v hl)
      · have hen' : st.config.enable_plan_caching = false :=
          Bool.eq_false_iff.mpr hen
        rw [create_plan_nocache hen']
        exact generate_strategy_confidence_bounds st uif hcur hllm

/-- Witness for C5: an empty planner (all hypotheses hold vacuously) yields a
rule-based result with confidence 0.6 ∈ [0,1]. -/
theorem C5_witness :
    0 ≤ (create_plan base_state (base_uif "hello") 0 Option.none).1.confidence ∧
      (create_plan base_state (base_uif "hello") 0 Option.none).1.confidence ≤ 1 := by
  refine C5_confidence_bounds base_state (base_uif "hello") 0 Option.none ?_ ?_ ?_
  · intro k entry h
    simp [base_state] at h
  · intro cur hc
    simp [base_state] at hc
  · intro s v h
    simp [base_state] at h

/-- The adversarial model response for the C5 counterexample. -/
def c5_response : String :=
  "\x7b\"plan\": [\"ResponseGenerationSkill\"], \"confidence\": 5\x7d"

/-- A decoder matching `json.loads` on the C5 response. -/
def c5_loads : String → Except String PyVal := fun s =>
  if s = c5_response then
    Except.ok (PyVal.dict [("plan", PyVal.list [PyVal.str "ResponseGenerationSkill"]),
      ("confidence", PyVal.num 5)])
  else Except.error "Expecting value"

/-- State for the C5 counterexample: an LLM collaborator that answers with a
valid plan but confidence 5. -/
def c5_state : PlannerState :=
  { config := { enable_plan_caching := false, plan_cache_ttl := 300, max_plan_length := 10 }
    registered_skills := [("ResponseGenerationSkill", mk_skill "ResponseGenerationSkill" "1.0")]
    plan_cache := []
    curriculum := Option.none
    llm_model := some (fun _ _ _ => Except.ok c5_response)
    graph_database := false
    json_loads := c5_loads }

/-- Counterexample to C5 as stated: the model's parsed JSON confidence is
passed through unclamped, so a response with `"confidence": 5` produces a
result whose confidence is 5 ∉ [0,1]. -/
theorem C5_counterexample :
    (create_plan c5_state (base_uif "hello") 0 Option.none).1.confidence = 5 ∧
    ¬((5 : ℚ) ≤ 1) := by
  exact ⟨rfl, by decide⟩

/-! ## C4 — returned plans name registered skills -/

theorem memory_stage_plan (st : PlannerState) (uif : SAM_UIF) (q : String) :
    (memory_stage st uif q).1 =
      if skill_registered st "MemoryRetrievalSkill" then ["MemoryRetrievalSkill"]
      else [] := by
  by_cases h : skill_registered st "MemoryRetrievalSkill" = true <;>
    simp [memory_stage, h]

theorem conflict_stage_plan (st : PlannerState) (q : String) :
    (conflict_stage st q).1 = [] ∨
      ((conflict_stage st q).1 = ["ConflictDetectorSkill"] ∧
        skill_registered st "ConflictDetectorSkill" = true) := by
  unfold conflict_stage
  split
  · next h =>
      right
      refine ⟨rfl, ?_⟩
      simp only [Bool.and_eq_true, decide_eq_true_eq] at h
      exact h.2
  · next h => exact Or.inl rfl

theorem multihop_stage_plan (st : PlannerState) (q : String) :
    (multihop_stage st q).1 = [] ∨
      ((multihop_stage st q).1 = ["ImplicitKnowledgeSkill"] ∧
        skill_registered st "ImplicitKnowledgeSkill" = true) := by
  unfold multihop_stage
  split
  · next h =>
      right
      refine ⟨rfl, ?_⟩
      simp only [Bool.and_eq_true, decide_eq_true_eq] at h
      exact h.2
  · next h => exact Or.inl rfl

theorem response_stage_plan (st : PlannerState) :
    (response_stage st).1 =
      if skill_registered st "ResponseGenerationSkill" then ["ResponseGenerationSkill"]
      else [] := by
  by_cases h : skill_registered st "ResponseGenerationSkill" = true <;>
    simp [response_stage, h]

theorem get_default_fallback_plan_subset {st : PlannerState}
    (hcore : skill_registered st "MemoryRetrievalSkill" = true ∨
             skill_registered st "ResponseGenerationSkill" = true) :
    ∀ s ∈ get_default_fallback_plan st, s ∈ names st := by
  intro s hs
  unfold get_default_fallback_plan at hs
  have hne : (["MemoryRetrievalSkill", "ResponseGenerationSkill"].filter
      (fun n => skill_registered st n)) ≠ [] := by
    rcases hcore with h | h
    · exact List.ne_nil_of_mem (List.mem_filter.mpr ⟨by simp, h⟩)
    · exact List.ne_nil_of_mem (List.mem_filter.mpr ⟨by simp, h⟩)
  rw [if_neg hne] at hs
  have := List.mem_filter.mp hs
  exact skill_registered_iff.mp this.2

theorem fallback_stage_plan_subset {st : PlannerState} {uif : SAM_UIF} :
    ∀ s ∈ fallback_stage_plan st uif, s ∈ names st := by
  intro s hs
  unfold fallback_stage_plan at hs
  simp only [List.mem_append] at hs
  rcases hs with ((hs | hs) | hs) | hs
  · rw [memory_stage_plan] at hs
    by_cases h : skill_registered st "MemoryRetrievalSkill" = true
    · rw [if_pos h] at hs
      rw [List.mem_singleton.mp hs]
      exact skill_registered_iff.mp h
    · rw [if_neg h] at hs
      exact absurd hs (List.not_mem_nil s)
  · rcases conflict_stage_plan st (lower_string uif.input_query) with h | ⟨hp, hr⟩
    · rw [h] at hs
      exact absurd hs (List.not_mem_nil s)
    · rw [hp] at hs
      rw [List.mem_singleton.mp hs]
      exact skill_registered_iff.mp hr
  · rcases multihop_stage_plan st (lower_string uif.input_query) with h | ⟨hp, hr⟩
    · rw [h] at hs
      exact absurd hs (List.not_mem_nil s)
    · rw [hp] at hs
      rw [List.mem_singleton.mp hs]
      exact skill_registered_iff.mp hr
  · rw [response_stage_plan] at hs
    by_cases h : skill_registered st "ResponseGenerationSkill" = true
    · rw [if_pos h] at hs
      rw [List.mem_singleton.mp hs]
      exact skill_registered_iff.mp h
    · rw [if_neg h] at hs
      exact absurd hs (List.not_mem_nil s)

theorem generate_fallback_plan_subset {st : PlannerState} {uif : SAM_UIF}
    (hcore : skill_registered st "MemoryRetrievalSkill" = true ∨
             skill_registered st "ResponseGenerationSkill" = true) :
    ∀ s ∈ (generate_fallback_plan st uif).1.plan, s ∈ names st := by
  intro s hs
  rw [generate_fallback_plan_plan_eq] at hs
  by_cases h : fallback_stage_plan st uif = []
  · rw [if_pos h] at hs
    exact get_default_fallback_plan_subset hcore s hs
  · rw [if_neg h] at hs
    exact fallback_stage_plan_subset s hs

theorem validate_true_shape {st : PlannerState} {v : PyVal}
    (h : validate_generated_plan st v = true) :
    ∃ kvs l, v = PyVal.dict kvs ∧ alist_get "plan" kvs = some (PyVal.list l) ∧
      l.all (plan_elem_registered st) = true ∧
      l.length ≤ st.config.max_plan_length := by
  cases v with
  | dict kvs =>
      cases hp : alist_get "plan" kvs with
      | none =>
          rw [validate_false_of_no_plan (by intro k hk l; cases hk; simp [hp])] at h
          exact absurd h Bool.false_ne_true
      | some w =>
          cases w with
          | list l =>
              rw [validate_eq_of_plan hp] at h
              obtain ⟨h1, h2⟩ := Bool.and_eq_true .. ▸ h
              exact ⟨kvs, l, rfl, hp, h1, by exact_mod_cast of_decide_eq_true h2⟩
          | null =>
              rw [validate_false_of_no_plan (by intro k hk l; cases hk; simp [hp])] at h
              exact absurd h Bool.false_ne_true
          | bool b =>
              rw [validate_false_of_no_plan (by intro k hk l; cases hk; simp [hp])] at h
              exact absurd h Bool.false_ne_true
          | num q =>
              rw [validate_false_of_no_plan (by intro k hk l; cases hk; simp [hp])] at h
              exact absurd h Bool.false_ne_true
          | str s =>
              rw [validate_false_of_no_plan (by intro k hk l; cases hk; simp [hp])] at h
              exact absurd h Bool.false_ne_true
          | dict d =>
              rw [validate_false_of_no_plan (by intro k hk l; cases hk; simp [hp])] at h
              exact absurd h Bool.false_ne_true
  | null => exact absurd h Bool.false_ne_true
  | bool b => exact absurd h Bool.false_ne_true
  | num q => exact absurd h Bool.false_ne_true
  | str s => exact absurd h Bool.false_ne_true
  | list l => exact absurd h Bool.false_ne_true

theorem validated_plan_subset {st : PlannerState} {v : PyVal}
    (h : validate_generated_plan st v = true) :
    ∀ s ∈ (plan_field_list v).map pyval_to_skill_name, s ∈ names st := by
  intro s hs
  obtain ⟨kvs, l, rfl, hp, hall, _⟩ := validate_true_shape h
  have hfl : plan_field_list (PyVal.dict kvs) = l := by
    simp [plan_field_list, hp]
  rw [hfl] at hs
  obtain ⟨x, hx, hxs⟩ := List.mem_map.mp hs
  have hxok := (List.all_eq_true.mp hall) x hx
  cases x with
  | str s₀ =>
      have : s₀ = s := hxs
      rw [← this]
      exact skill_registered_iff.mp hxok
  | null => exact absurd hxok Bool.false_ne_true
  | bool b => exact absurd hxok Bool.false_ne_true
  | num q => exact absurd hxok Bool.false_ne_true
  | list m => exact absurd hxok Bool.false_ne_true
  | dict d => exact absurd hxok Bool.false_ne_true

theorem generate_llm_plan_subset {st : PlannerState} {uif : SAM_UIF}
    (hcore : skill_registered st "MemoryRetrievalSkill" = true ∨
             skill_registered st "ResponseGenerationSkill" = true) :
    ∀ s ∈ (generate_llm_plan st uif).1.plan, s ∈ names st := by
  unfold generate_llm_plan
  cases hm : st.llm_model with
  | none => exact generate_fallback_plan_subset hcore
  | some gen =>
      simp only
      cases hr : gen (create_planning_prompt st uif) (mkRat 3 10) 500 with
      | error e => exact generate_fallback_plan_subset hcore
      | ok response =>
          simp only
          cases hp : parse_llm_response st response with
          | none => exact generate_fallback_plan_subset hcore
          | some pd =>
              simp only
              by_cases hne : (plan_field_list pd).isEmpty
              · rw [if_neg (by rw [hne]; exact Bool.false_ne_true)]
                exact generate_fallback_plan_subset hcore
              · rw [if_pos (by rw [Bool.eq_false_iff.mpr hne]; rfl)]
                obtain ⟨js, _, _, hval⟩ := parse_llm_response_some hp
                exact validated_plan_subset hval

theorem generate_strategy_subset {st : PlannerState} {uif : SAM_UIF}
    (hcore : skill_registered st "MemoryRetrievalSkill" = true ∨
             skill_registered st "ResponseGenerationSkill" = true)
    (hcur : ∀ cur, st.curriculum = some cur → ∀ q sk rp, cur q sk = Except.ok rp →
      ∀ s ∈ rp.skills, s ∈ names st) :
    ∀ s ∈ (generate_strategy st uif).1.plan, s ∈ names st := by
  unfold generate_strategy
  cases hc : st.curriculum with
  | none =>
      simp only
      by_cases hl : st.llm_model.isSome
      · rw [if_pos hl]
        exact generate_llm_plan_subset hcore
      · rw [if_neg hl]
        exact generate_fallback_plan_subset hcore
  | some cur =>
      simp only
      unfold generate_curriculum_plan
      cases hr : cur uif.input_query (names st) with
      | ok rp =>
          simp only
          exact hcur cur hc uif.input_query (names st) rp hr
      | error e =>
          simp only
          by_cases hl : st.llm_model.isSome
          · rw [if_pos hl]
            exact generate_llm_plan_subset hcore
          · rw [if_neg hl]
            exact generate_fallback_plan_subset hcore

theorem is_cache_entry_valid_iff {st : PlannerState} {now : ℤ} {e : PlanCacheEntry} :
    is_cache_entry_valid st now e = true ↔
      ¬(now - e.created_at > st.config.plan_cache_ttl) ∧
        e.skill_context = generate_skill_context st := by
  unfold is_cache_entry_valid
  by_cases h1 : now - e.created_at > st.config.plan_cache_ttl
  · simp [h1]
  · by_cases h2 : e.skill_context = generate_skill_context st
    · simp [h1, h2]
    · simp [h1, h2]

theorem bump_entry_plan (e : PlanCacheEntry) : (bump_entry e).plan = e.plan := rfl

/-- **C4 (amended).** Every skill name in a plan returned by `create_plan`
exists in the registry, provided (i) at least one of the two core skills is
registered — otherwise the default fallback plan injects
`ResponseGenerationSkill` even though it is unregistered; (ii) the curriculum
collaborator (if configured) returns only registered names — its plans are
adopted without re-validation; and (iii) valid cache entries hold only
registered names — cached plans are not re-validated beyond the registry
fingerprint. -/
theorem C4_plan_skills_registered (st : PlannerState) (uif : SAM_UIF) (now : ℤ)
    (exc : Option String)
    (hcore : skill_registered st "MemoryRetrievalSkill" = true ∨
             skill_registered st "ResponseGenerationSkill" = true)
    (hcur : ∀ cur, st.curriculum = some cur → ∀ q sk rp, cur q sk = Except.ok rp →
      ∀ s ∈ rp.skills, s ∈ names st)
    (hcache : ∀ k entry, (k, entry) ∈ st.plan_cache →
      entry.skill_context = generate_skill_context st →
      ∀ s ∈ entry.plan, s ∈ names st) :
    ∀ s ∈ (create_plan st uif now exc).1.plan, s ∈ names st := by
  cases exc with
  | some e =>
      rw [create_plan_exc]
      exact get_default_fallback_plan_subset hcore
  | none =>
      by_cases hen : st.config.enable_plan_caching = true
      · rcases hchk : check_plan_cache st uif now with ⟨r, st₁⟩
        cases r with
        | some entry =>
            rw [create_plan_hit hchk hen]
            obtain ⟨e₀, hg, hval, hbump, _⟩ := check_plan_cache_some hchk
            have hctx := (is_cache_entry_valid_iff.mp hval).2
            intro s hs
            rw [hbump, bump_entry_plan] at hs
            exact hcache _ e₀ (alist_get_mem hg) hctx s hs
        | none =>
            rw [create_plan_miss hen hchk]
            obtain ⟨pc, hst₁⟩ := check_plan_cache_shape hchk
            subst hst₁
            exact generate_strategy_subset hcore
              (fun cur hc q sk rp hr => hcur cur hc q sk rp hr)
      · have hen' : st.config.enable_plan_caching = false :=
          Bool.eq_false_iff.mpr hen
        rw [create_plan_nocache hen']
        exact generate_strategy_subset hcore hcur

/-- Witness for C4: with only `ResponseGenerationSkill` registered and no
collaborators, the skill named by the returned plan is registered. -/
theorem C4_witness :
    "ResponseGenerationSkill" ∈ names c1_state := by
  refine C4_plan_skills_registered c1_state (base_uif "hello") 0 Option.none
    (Or.inr (by decide)) ?_ ?_ "ResponseGenerationSkill" (by decide)
  · intro cur hc q sk rp hr s hs
    have hfn : (fun (_ : String) (_ : List String) =>
        (Except.error "curriculum failure" : Except String ReasoningPlan)) = cur :=
      Option.some.inj hc
    rw [← hfn] at hr
    exact absurd hr (by simp)
  · intro k entry h
    simp [c1_state] at h

/-- Counterexample to C4 as stated: with an empty registry, the error-path
result (and equally the rule-based path) is `["ResponseGenerationSkill"]`,
whose element is not in the registry. -/
theorem C4_counterexample :
    (create_plan base_state (base_uif "hello") 0 (some "boom")).1.plan =
      ["ResponseGenerationSkill"] ∧
    names base_state = [] ∧
    "ResponseGenerationSkill" ∉ ([] : List String) := by
  exact ⟨rfl, rfl, by decide⟩

/-! ## C3 — cache lookup validity, eviction, usage increment, TTL -/

theorem bump_entry_created_at (e : PlanCacheEntry) :
    (bump_entry e).created_at = e.created_at := rfl

theorem bump_entry_skill_context (e : PlanCacheEntry) :
    (bump_entry e).skill_context = e.skill_context := rfl

theorem is_cache_entry_valid_false_of_expired {st : PlannerState} {now : ℤ}
    {e : PlanCacheEntry} (h : now - e.created_at > st.config.plan_cache_ttl) :
    is_cache_entry_valid st now e = false := by
  unfold is_cache_entry_valid
  rw [if_pos h]

/-- **C3 (amended).** A cache lookup returns an entry only if the entry's age
is at most the TTL (the code expires on `age > ttl`, so an entry whose age
equals the TTL still hits) and the entry's registry-context fingerprint
equals the current one; an entry found invalid on access is evicted; on a hit
the usage counter increments by exactly 1, the cached plan is returned
unchanged, and `create_plan` reports it with `cacheHit = true`; an entry
created at time T is no longer returned as a hit at any time strictly later
than T + ttl. -/
theorem C3_cache_lookup (st : PlannerState) (uif : SAM_UIF) (now : ℤ) :
    (∀ entry st', check_plan_cache st uif now = (some entry, st') →
      now - entry.created_at ≤ st.config.plan_cache_ttl ∧
      entry.skill_context = generate_skill_context st) ∧
    (∀ entry, alist_get (generate_query_hash st uif) st.plan_cache = some entry →
      is_cache_entry_valid st now entry = false →
      check_plan_cache st uif now =
        (Option.none,
         { st with plan_cache :=
             alist_erase (generate_query_hash st uif) st.plan_cache })) ∧
    (∀ e₀ entry st',
      alist_get (generate_query_hash st uif) st.plan_cache = some e₀ →
      check_plan_cache st uif now = (some entry, st') →
      entry.usage_count = e₀.usage_count + 1 ∧ entry.plan = e₀.plan) ∧
    (∀ entry st', st.config.enable_plan_caching = true →
      check_plan_cache st uif now = (some entry, st') →
      create_plan st uif now Option.none =
        ({ plan := entry.plan
           confidence := entry.confidence
           reasoning := "Retrieved from cache (used " ++ toString entry.usage_count ++ " times)"
           cache_hit := true
           generation_time := 0
           fallback_used := false }, st', uif)) ∧
    (∀ entry, alist_get (generate_query_hash st uif) st.plan_cache = some entry →
      now - entry.created_at > st.config.plan_cache_ttl →
      (check_plan_cache st uif now).1 = Option.none) := by
  refine ⟨?_, ?_, ?_, ?_, ?_⟩
  · intro entry st' h
    obtain ⟨e₀, hg, hval, hbump, _⟩ := check_plan_cache_some h
    obtain ⟨hage, hctx⟩ := is_cache_entry_valid_iff.mp hval
    rw [hbump, bump_entry_created_at, bump_entry_skill_context]
    exact ⟨not_lt.mp hage, hctx⟩
  · intro entry hg hv
    exact check_plan_cache_invalid hg hv
  · intro e₀ entry st' hg h
    obtain ⟨e₁, hg', _, hbump, _⟩ := check_plan_cache_some h
    have he : e₁ = e₀ := Option.some.inj (hg'.symm.trans hg)
    rw [hbump, he]
    exact ⟨rfl, rfl⟩
  · intro entry st' hen h
    exact create_plan_hit h hen
  · intro entry hg hage
    rw [check_plan_cache_invalid hg (is_cache_entry_valid_false_of_expired hage)]

/-- The cache key of the C3 scenario (the md5 model is the identity). -/
def c3_key : String :=
  "q|default|" ++ py_str_list ["ResponseGenerationSkill"]

/-- A cached entry created at time 0 with the C3 state's registry context. -/
def c3_entry : PlanCacheEntry :=
  { plan := ["ResponseGenerationSkill"]
    confidence := mkRat 6 10
    created_at := 0
    usage_count := 0
    query_hash := c3_key
    skill_context := "ResponseGenerationSkill:1.0" }

/-- State for the C3 scenario: caching on, TTL 300 seconds, one valid entry. -/
def c3_state : PlannerState :=
  { config := base_config
    registered_skills := [("ResponseGenerationSkill", mk_skill "ResponseGenerationSkill" "1.0")]
    plan_cache := [(c3_key, c3_entry)]
    curriculum := Option.none
    llm_model := Option.none
    graph_database := false
    json_loads := fun _ => Except.error "invalid json" }

/-- The C3 scenario's request. -/
def c3_uif : SAM_UIF := base_uif "q"

/-- Witness for C3: at time 10 the entry hits (usage bumped to 1, same plan,
`cacheHit = true`); at time 400 (past the TTL) it is evicted and no hit
occurs. -/
theorem C3_witness :
    (10 - (bump_entry c3_entry).created_at ≤ c3_state.config.plan_cache_ttl ∧
      (bump_entry c3_entry).skill_context = generate_skill_context c3_state) ∧
    ((bump_entry c3_entry).usage_count = c3_entry.usage_count + 1 ∧
      (bump_entry c3_entry).plan = c3_entry.plan) ∧
    create_plan c3_state c3_uif 10 Option.none =
      ({ plan := (bump_entry c3_entry).plan
         confidence := (bump_entry c3_entry).confidence
         reasoning := "Retrieved from cache (used 1 times)"
         cache_hit := true
         generation_time := 0
         fallback_used := false }, (check_plan_cache c3_state c3_uif 10).2, c3_uif) ∧
    check_plan_cache c3_state c3_uif 400 =
      (Option.none,
       { c3_state with
           plan_cache :=
             alist_erase (generate_query_hash c3_state c3_uif) c3_state.plan_cache }) ∧
    (check_plan_cache c3_state c3_uif 400).1 = Option.none := by
  refine ⟨?_, ?_, ?_, ?_, ?_⟩
  · exact (C3_cache_lookup c3_state c3_uif 10).1 (bump_entry c3_entry)
      (check_plan_cache c3_state c3_uif 10).2 rfl
  · exact (C3_cache_lookup c3_state c3_uif 10).2.2.1 c3_entry (bump_entry c3_entry)
      (check_plan_cache c3_state c3_uif 10).2 rfl rfl
  · exact (C3_cache_lookup c3_state c3_uif 10).2.2.2.1 (bump_entry c3_entry)
      (check_plan_cache c3_state c3_uif 10).2 rfl rfl
  · exact (C3_cache_lookup c3_state c3_uif 400).2.1 c3_entry rfl (by decide)
  · exact (C3_cache_lookup c3_state c3_uif 400).2.2.2.2 c3_entry rfl (by decide)

/-- Counterexample to C3 as stated: at time exactly T + ttl (age = ttl) the
entry is still returned as a hit, because the code expires only on
`age > ttl`, not `age ≥ ttl`. -/
theorem C3_counterexample :
    c3_entry.created_at = 0 ∧
    c3_state.config.plan_cache_ttl = 300 ∧
    (300 : ℤ) = c3_entry.created_at + c3_state.config.plan_cache_ttl ∧
    (check_plan_cache c3_state c3_uif 300).1 = some (bump_entry c3_entry) := by
  refine ⟨rfl, rfl, ?_, ?_⟩
  · show (300 : ℤ) = 0 + 300
    decide
  · rfl

/-! ## C10 — rule-based results are cached and then hit -/

theorem generate_strategy_eq_fallback {st : PlannerState} (uif : SAM_UIF)
    (hcur : st.curriculum = Option.none) (hllm : st.llm_model = Option.none) :
    generate_strategy st uif = generate_fallback_plan st uif := by
  unfold generate_strategy
  rw [hcur]
  simp [hllm]

theorem memory_stage_uif_query (st : PlannerState) (uif : SAM_UIF) (q : String) :
    ((memory_stage st uif q).2.2).input_query = uif.input_query := by
  by_cases h : skill_registered st "MemoryRetrievalSkill" = true <;>
    simp [memory_stage, h]

theorem memory_stage_uif_profile (st : PlannerState) (uif : SAM_UIF) (q : String) :
    ((memory_stage st uif q).2.2).active_profile = uif.active_profile := by
  by_cases h : skill_registered st "MemoryRetrievalSkill" = true <;>
    simp [memory_stage, h]

theorem fallback_uif_query_hash (st : PlannerState) (uif : SAM_UIF) :
    generate_query_hash st (generate_fallback_plan st uif).2 =
      generate_query_hash st uif := by
  unfold generate_query_hash
  rw [generate_fallback_plan_uif, memory_stage_uif_query, memory_stage_uif_profile]

theorem generate_fallback_plan_result_fields (st : PlannerState) (uif : SAM_UIF) :
    (generate_fallback_plan st uif).1.fallback_used = true ∧
    (generate_fallback_plan st uif).1.cache_hit = false := ⟨rfl, rfl⟩

theorem alist_get_single_self {α : Type} (k K : String) (v : α) (h : k = K) :
    alist_get K [(k, v)] = some v := by
  subst h
  simp [alist_get]

theorem cache_plan_empty (st : PlannerState) (uif₂ : SAM_UIF)
    (result : PlanGenerationResult) (now : ℤ)
    (hpc : st.plan_cache = [])
    (httl0 : 0 ≤ st.config.plan_cache_ttl) :
    cache_plan st uif₂ result now =
      { st with plan_cache :=
          [(generate_query_hash st uif₂, cached_entry st uif₂ result now)] } := by
  simp only [cache_plan, cleanup_cache]
  rw [hpc]
  have hset : alist_set (generate_query_hash st uif₂) (cached_entry st uif₂ result now)
      ([] : List (String × PlanCacheEntry)) =
      [(generate_query_hash st uif₂, cached_entry st uif₂ result now)] := by
    simp [alist_set, alist_get]
  rw [hset]
  have hval : is_cache_entry_valid
      { st with plan_cache :=
          [(generate_query_hash st uif₂, cached_entry st uif₂ result now)] } now
      (cached_entry st uif₂ result now) = true := by
    refine is_cache_entry_valid_iff.mpr ⟨?_, rfl⟩
    show ¬(now - now > st.config.plan_cache_ttl)
    omega
  have hfil : List.filter
      (fun p => is_cache_entry_valid
        { st with plan_cache :=
            [(generate_query_hash st uif₂, cached_entry st uif₂ result now)] } now p.2)
      [(generate_query_hash st uif₂, cached_entry st uif₂ result now)] =
      [(generate_query_hash st uif₂, cached_entry st uif₂ result now)] := by
    simp [List.filter, hval]
  rw [hfil]

/-- **C10.** When caching is enabled, a rule-based (fallback-strategy) result
— non-empty plan, fixed confidence 0.6 > 0.5 — is stored in the cache, and a
subsequent `create_plan` call with the same query, profile and registry state
within the TTL returns that same plan with `fallbackUsed = false` and
`cacheHit = true`, even though the plan was originally generated by the
fallback strategy. -/
theorem C10_rule_based_plan_cached (st : PlannerState) (uif : SAM_UIF) (t₁ t₂ : ℤ)
    (hcur : st.curriculum = Option.none)
    (hllm : st.llm_model = Option.none)
    (hen : st.config.enable_plan_caching = true)
    (hpc : st.plan_cache = [])
    (ht : t₁ ≤ t₂)
    (httl : t₂ - t₁ ≤ st.config.plan_cache_ttl) :
    (create_plan st uif t₁ Option.none).1.fallback_used = true ∧
    (create_plan st uif t₁ Option.none).1.confidence = mkRat 6 10 ∧
    ((create_plan (create_plan st uif t₁ Option.none).2.1
        (create_plan st uif t₁ Option.none).2.2 t₂ Option.none).1.plan =
      (create_plan st uif t₁ Option.none).1.plan) ∧
    (create_plan (create_plan st uif t₁ Option.none).2.1
        (create_plan st uif t₁ Option.none).2.2 t₂ Option.none).1.cache_hit = true ∧
    (create_plan (create_plan st uif t₁ Option.none).2.1
        (create_plan st uif t₁ Option.none).2.2 t₂ Option.none).1.fallback_used = false := by
  have httl0 : 0 ≤ st.config.plan_cache_ttl := le_trans (by omega) httl
  have hchk1 : check_plan_cache st uif t₁ = (Option.none, st) :=
    check_plan_cache_none (by rw [hpc]; rfl)
  have hstrat := generate_strategy_eq_fallback uif hcur hllm
  have hne := generate_fallback_plan_ne_nil st uif
  have hE : (generate_fallback_plan st uif).1.plan.isEmpty = false := by
    cases h : (generate_fallback_plan st uif).1.plan with
    | nil => exact absurd h hne
    | cons a t => rfl
  have h1 : create_plan st uif t₁ Option.none =
      ({ (generate_fallback_plan st uif).1 with generation_time := 0 },
       cache_plan st (generate_fallback_plan st uif).2
         (generate_fallback_plan st uif).1 t₁,
       (generate_fallback_plan st uif).2) := by
    rw [create_plan_miss hen hchk1, hstrat]
    rw [if_pos]
    rw [hen, hE, generate_fallback_plan_confidence]
    decide
  have hcp := cache_plan_empty st (generate_fallback_plan st uif).2
    (generate_fallback_plan st uif).1 t₁ hpc httl0
  have hget : alist_get
      (generate_query_hash
        { st with plan_cache :=
            [(generate_query_hash st (generate_fallback_plan st uif).2,
              cached_entry st (generate_fallback_plan st uif).2
                (generate_fallback_plan st uif).1 t₁)] }
        (generate_fallback_plan st uif).2)
      [(generate_query_hash st (generate_fallback_plan st uif).2,
        cached_entry st (generate_fallback_plan st uif).2
          (generate_fallback_plan st uif).1 t₁)] =
      some (cached_entry st (generate_fallback_plan st uif).2
        (generate_fallback_plan st uif).1 t₁) :=
    alist_get_single_self _ _ _ rfl
  have hval2 : is_cache_entry_valid
      { st with plan_cache :=
          [(generate_query_hash st (generate_fallback_plan st uif).2,
            cached_entry st (generate_fallback_plan st uif).2
              (generate_fallback_plan st uif).1 t₁)] } t₂
      (cached_entry st (generate_fallback_plan st uif).2
        (generate_fallback_plan st uif).1 t₁) = true := by
    refine is_cache_entry_valid_iff.mpr ⟨?_, rfl⟩
    show ¬(t₂ - t₁ > st.config.plan_cache_ttl)
    omega
  have hchk2 := check_plan_cache_valid hget hval2
  rw [h1]
  refine ⟨rfl, rfl, ?_, ?_, ?_⟩
  all_goals rw [hcp, create_plan_hit hchk2 hen]
  all_goals exact rfl

/-- State for the C10 witness: caching on, no collaborators, one skill. -/
def c10_state : PlannerState :=
  { config := base_config
    registered_skills := [("ResponseGenerationSkill", mk_skill "ResponseGenerationSkill" "1.0")]
    plan_cache := []
    curriculum := Option.none
    llm_model := Option.none
    graph_database := false
    json_loads := fun _ => Except.error "invalid json" }

/-- Witness for C10: a rule-based result at time 0 is cached and the repeat
call at time 100 (within the 300-second TTL) hits the cache. -/
theorem C10_witness :
    (create_plan c10_state (base_uif "hello") 0 Option.none).1.fallback_used = true ∧
    (create_plan c10_state (base_uif "hello") 0 Option.none).1.confidence = mkRat 6 10 ∧
    ((create_plan (create_plan c10_state (base_uif "hello") 0 Option.none).2.1
        (create_plan c10_state (base_uif "hello") 0 Option.none).2.2 100 Option.none).1.plan =
      (create_plan c10_state (base_uif "hello") 0 Option.none).1.plan) ∧
    (create_plan (create_plan c10_state (base_uif "hello") 0 Option.none).2.1
        (create_plan c10_state (base_uif "hello") 0 Option.none).2.2 100 Option.none).1.cache_hit =
      true ∧
    (create_plan (create_plan c10_state (base_uif "hello") 0 Option.none).2.1
        (create_plan c10_state (base_uif "hello") 0 Option.none).2.2 100 Option.none).1.fallback_used =
      false := by
  exact C10_rule_based_plan_cached c10_state (base_uif "hello") 0 100
    rfl rfl rfl rfl (by decide) (by decide)

/-! ## C6 — registry fingerprint changes on registration -/

theorem str_append_left_cancel {a b c : String} (h : a ++ b = a ++ c) : b = c := by
  have hd := congrArg String.data h
  rw [String.data_append, String.data_append] at hd
  exact String.ext (List.append_cancel_left hd)

theorem str_append_right_cancel {a b c : String} (h : a ++ c = b ++ c) : a = b := by
  have hd := congrArg String.data h
  rw [String.data_append, String.data_append] at hd
  exact String.ext (List.append_cancel_right hd)

/-- The continuation of `py_join` after its first element. -/
def py_tail (sep : String) : List String → String
  | [] => ""
  | b :: t => sep ++ py_join sep (b :: t)

theorem py_join_cons (sep x : String) (l : List String) :
    py_join sep (x :: l) = x ++ py_tail sep l := by
  cases l with
  | nil =>
      show x = x ++ ""
      refine (String.ext ?_).symm
      rw [String.data_append]
      simp [py_tail]
  | cons b t =>
      show x ++ sep ++ py_join sep (b :: t) = x ++ (sep ++ py_join sep (b :: t))
      rw [String.append_assoc]

theorem py_tail_of_ne_nil (sep : String) {l : List String} (h : l ≠ []) :
    py_tail sep l = sep ++ py_join sep l := by
  cases l with
  | nil => exact absurd rfl h
  | cons b t => rfl

theorem py_join_inj_at (sep x y : String) :
    ∀ (A B : List String),
      py_join sep (A ++ x :: B) = py_join sep (A ++ y :: B) → x = y := by
  intro A
  induction A with
  | nil =>
      intro B h
      rw [List.nil_append, List.nil_append, py_join_cons, py_join_cons] at h
      exact str_append_right_cancel h
  | cons a A₁ ih =>
      intro B h
      rw [List.cons_append, List.cons_append, py_join_cons, py_join_cons] at h
      have h₁ := str_append_left_cancel h
      rw [py_tail_of_ne_nil sep (by simp), py_tail_of_ne_nil sep (by simp)] at h₁
      exact ih B (str_append_left_cancel h₁)

theorem py_join_length (sep : String) :
    ∀ l : List String,
      (py_join sep l).length =
        (l.map String.length).sum + sep.length * (l.length - 1) := by
  intro l
  induction l with
  | nil => simp [py_join]
  | cons a t ih =>
      cases t with
      | nil => simp [py_join]
      | cons b t₁ =>
          show (a ++ sep ++ py_join sep (b :: t₁)).length = _
          rw [String.length_append, String.length_append, ih]
          simp only [List.map_cons, List.sum_cons, List.length_cons,
            Nat.succ_sub_one]
          ring

theorem insort_perm (x : String) : ∀ l : List String, (insort x l).Perm (x :: l) := by
  intro l
  induction l with
  | nil => exact List.Perm.refl _
  | cons y ys ih =>
      rw [insort]
      by_cases h : str_le x y = true
      · rw [if_pos h]
      · rw [if_neg h]
        exact (ih.cons y).trans (List.Perm.swap x y ys)

theorem sort_strings_perm : ∀ l : List String, (sort_strings l).Perm l := by
  intro l
  induction l with
  | nil => exact List.Perm.refl _
  | cons a t ih =>
      show (insort a (sort_strings t)).Perm (a :: t)
      exact (insort_perm a (sort_strings t)).trans (ih.cons a)

theorem alist_replace_fst {α : Type} (k : String) (v : α) :
    ∀ d : List (String × α),
      (alist_replace k v d).map Prod.fst = d.map Prod.fst := by
  intro d
  induction d with
  | nil => rfl
  | cons p t ih =>
      obtain ⟨k₀, w⟩ := p
      by_cases hk : k₀ = k
      · subst hk
        simp [alist_replace, ih]
  
      · simp [alist_replace, hk, ih]

theorem names_register_fresh {st : PlannerState} {sk : Skill}
    (h : skill_registered st sk.skill_name = false) :
    names (register_skill st sk) = names st ++ [sk.skill_name] := by
  unfold names register_skill alist_set
  unfold skill_registered at h
  rw [h]
  simp

theorem names_register_existing {st : PlannerState} {sk : Skill}
    (h : skill_registered st sk.skill_name = true) :
    names (register_skill st sk) = names st := by
  unfold names register_skill alist_set
  unfold skill_registered at h
  rw [h]
  simp only [if_true]
  exact alist_replace_fst sk.skill_name sk st.registered_skills

theorem alist_get_erase_ne {α : Type} {k n : String} (h : k ≠ n) :
    ∀ d : List (String × α), alist_get k (alist_erase n d) = alist_get k d := by
  intro d
  induction d with
  | nil => rfl
  | cons p t ih =>
      obtain ⟨k₀, w⟩ := p
      by_cases hk : k₀ = n
      · subst hk
        simp [alist_erase, alist_get, Ne.symm h]
      · by_cases hk2 : k₀ = k
        · subst hk2
          simp [alist_erase, alist_get, hk]
        · simp [alist_erase, alist_get, hk, hk2, ih]

theorem alist_erase_split {α : Type} (n : String) :
    ∀ d : List (String × α), (alist_get n d).isSome = true →
      ∃ A B, d.map Prod.fst = A ++ n :: B ∧
        (alist_erase n d).map Prod.fst = A ++ B ∧ n ∉ A := by
  intro d
  induction d with
  | nil => intro h; simp [alist_get] at h
  | cons p t ih =>
      obtain ⟨k₀, w⟩ := p
      intro h
      by_cases hk : k₀ = n
      · subst hk
        exact ⟨[], t.map Prod.fst, by simp, by simp [alist_erase], by simp⟩
      · rw [alist_get, if_neg hk] at h
        obtain ⟨A, B, h1, h2, h3⟩ := ih h
        refine ⟨k₀ :: A, B, by simp [h1], by simp [alist_erase, hk, h2], ?_⟩
        intro hmem
        rcases List.mem_cons.mp hmem with he | hA
        · exact hk he.symm
        · exact h3 hA

theorem skill_signature_register_ne {st : PlannerState} {sk : Skill} {k : String}
    (hk : k ≠ sk.skill_name) :
    skill_signature (register_skill st sk) k = skill_signature st k := by
  unfold skill_signature register_skill
  rw [alist_get_set_ne hk]

theorem skill_signature_unregister_ne {st : PlannerState} {n k : String}
    (hk : k ≠ n) :
    skill_signature (unregister_skill st n) k = skill_signature st k := by
  unfold skill_signature unregister_skill
  rw [alist_get_erase_ne hk]

theorem skill_signature_length (st : PlannerState) (n : String) :
    1 ≤ (skill_signature st n).length := by
  unfold skill_signature
  rw [String.length_append, String.length_append]
  have : (":" : String).length = 1 := rfl
  omega

theorem generate_skill_context_length (st : PlannerState) :
    (generate_skill_context st).length =
      ((names st).map (fun n => (skill_signature st n).length)).sum +
        ((names st).length - 1) := by
  unfold generate_skill_context
  rw [py_join_length, List.map_map, List.length_map]
  have hp : ((sort_strings (names st)).map (String.length ∘ skill_signature st)).Perm
      ((names st).map (String.length ∘ skill_signature st)) :=
    (sort_strings_perm (names st)).map _
  rw [hp.sum_eq, (sort_strings_perm (names st)).length_eq]
  have h1 : ("|" : String).length = 1 := rfl
  rw [h1, one_mul]
  rfl

theorem generate_llm_plan_cache_hit (st : PlannerState) (uif : SAM_UIF) :
    (generate_llm_plan st uif).1.cache_hit = false := by
  unfold generate_llm_plan
  cases hm : st.llm_model with
  | none => exact rfl
  | some gen =>
      simp only
      cases hr : gen (create_planning_prompt st uif) (mkRat 3 10) 500 with
      | error e => exact rfl
      | ok response =>
          simp only
          cases hp : parse_llm_response st response with
          | none => exact rfl
          | some pd =>
              simp only
              by_cases hne : (plan_field_list pd).isEmpty
              · rw [if_neg (by rw [hne]; exact Bool.false_ne_true)]
                exact rfl
              · rw [if_pos (by rw [Bool.eq_false_iff.mpr hne]; rfl)]

theorem generate_strategy_cache_hit (st : PlannerState) (uif : SAM_UIF) :
    (generate_strategy st uif).1.cache_hit = false := by
  unfold generate_strategy
  cases hc : st.curriculum with
  | none =>
      simp only
      by_cases hl : st.llm_model.isSome
      · rw [if_pos hl]
        exact generate_llm_plan_cache_hit st uif
      · rw [if_neg hl]
        exact rfl
  | some cur =>
      simp only
      unfold generate_curriculum_plan
      cases hr : cur uif.input_query (names st) with
      | ok rp => exact rfl
      | error e =>
          simp only
          by_cases hl : st.llm_model.isSome
          · rw [if_pos hl]
            exact generate_llm_plan_cache_hit st uif
          · rw [if_neg hl]
            exact rfl

theorem generate_skill_context_register_fresh_length {st : PlannerState} {sk : Skill}
    (h : skill_registered st sk.skill_name = false) :
    (generate_skill_context st).length <
      (generate_skill_context (register_skill st sk)).length := by
  have hmem : sk.skill_name ∉ names st := by
    intro hm
    rw [← skill_registered_iff, h] at hm
    exact Bool.false_ne_true hm
  rw [generate_skill_context_length, generate_skill_context_length,
    names_register_fresh h]
  rw [List.map_append, List.sum_append, List.length_append]
  have hcong : (names st).map
        (fun n => (skill_signature (register_skill st sk) n).length) =
      (names st).map (fun n => (skill_signature st n).length) := by
    apply List.map_congr_left
    intro n hn
    have hne : n ≠ sk.skill_name := fun he => hmem (he ▸ hn)
    rw [skill_signature_register_ne hne]
  rw [hcong]
  have hL := skill_signature_length (register_skill st sk) sk.skill_name
  simp only [List.map_cons, List.map_nil, List.sum_cons, List.sum_nil,
    List.length_cons, List.length_nil]
  omega

theorem generate_skill_context_unregister_length {st : PlannerState} {n : String}
    (hnd : (names st).Nodup)
    (h : skill_registered st n = true) :
    (generate_skill_context (unregister_skill st n)).length <
      (generate_skill_context st).length := by
  unfold skill_registered at h
  obtain ⟨A, B, h1, h2, h3⟩ := alist_erase_split n st.registered_skills h
  have hnames : names st = A ++ n :: B := h1
  have hnames' : names (unregister_skill st n) = A ++ B := h2
  have hnotB : n ∉ B := by
    rw [hnames] at hnd
    rw [List.nodup_append] at hnd
    exact (List.nodup_cons.mp hnd.2.1).1
  rw [generate_skill_context_length, generate_skill_context_length,
    hnames, hnames']
  rw [List.map_append, List.sum_append, List.length_append,
    List.map_append, List.sum_append, List.length_append]
  have hcA : A.map (fun m => (skill_signature (unregister_skill st n) m).length) =
      A.map (fun m => (skill_signature st m).length) := by
    apply List.map_congr_left
    intro m hm
    have hne : m ≠ n := fun he => h3 (he ▸ hm)
    rw [skill_signature_unregister_ne hne]
  have hcB : B.map (fun m => (skill_signature (unregister_skill st n) m).length) =
      B.map (fun m => (skill_signature st m).length) := by
    apply List.map_congr_left
    intro m hm
    have hne : m ≠ n := fun he => hnotB (he ▸ hm)
    rw [skill_signature_unregister_ne hne]
  rw [hcA, hcB]
  have hL := skill_signature_length st n
  simp only [List.map_cons, List.sum_cons, List.length_cons]
  omega

theorem generate_skill_context_register_version_ne {st : PlannerState} {sk old : Skill}
    (hnd : (names st).Nodup)
    (hget : alist_get sk.skill_name st.registered_skills = some old)
    (hver : old.skill_version ≠ sk.skill_version) :
    generate_skill_context (register_skill st sk) ≠ generate_skill_context st := by
  have hreg : skill_registered st sk.skill_name = true := by
    unfold skill_registered
    rw [hget]
    rfl
  have hmem : sk.skill_name ∈ names st := skill_registered_iff.mp hreg
  have hmem' : sk.skill_name ∈ sort_strings (names st) :=
    ((sort_strings_perm (names st)).mem_iff).mpr hmem
  obtain ⟨A, B, hsplit⟩ := List.append_of_mem hmem'
  have hnds : (A ++ sk.skill_name :: B).Nodup := by
    rw [← hsplit]
    exact ((sort_strings_perm (names st)).nodup_iff).mpr hnd
  rw [List.nodup_append] at hnds
  obtain ⟨hA, hnB, hdisj⟩ := hnds
  have hnotA : sk.skill_name ∉ A := fun hm => hdisj hm (List.mem_cons_self _ _)
  have hnotB : sk.skill_name ∉ B := (List.nodup_cons.mp hnB).1
  have hnm : names (register_skill st sk) = names st := names_register_existing hreg
  intro hctx
  unfold generate_skill_context at hctx
  rw [hnm, hsplit, List.map_append, List.map_cons, List.map_append,
    List.map_cons] at hctx
  have hcA : A.map (skill_signature (register_skill st sk)) =
      A.map (skill_signature st) := by
    apply List.map_congr_left
    intro m hm
    have hne : m ≠ sk.skill_name := fun he => hnotA (he ▸ hm)
    exact skill_signature_register_ne hne
  have hcB : B.map (skill_signature (register_skill st sk)) =
      B.map (skill_signature st) := by
    apply List.map_congr_left
    intro m hm
    have hne : m ≠ sk.skill_name := fun he => hnotB (he ▸ hm)
    exact skill_signature_register_ne hne
  rw [hcA, hcB] at hctx
  have hsigs := py_join_inj_at "|"
    (skill_signature (register_skill st sk) sk.skill_name)
    (skill_signature st sk.skill_name)
    (A.map (skill_signature st)) (B.map (skill_signature st)) hctx
  have hsig' : skill_signature (register_skill st sk) sk.skill_name =
      sk.skill_name ++ ":" ++ sk.skill_version := by
    unfold skill_signature
    have hset : alist_get sk.skill_name (register_skill st sk).registered_skills =
        some sk := alist_get_set_self sk.skill_name sk st.registered_skills
    rw [hset]
  have hsig : skill_signature st sk.skill_name =
      sk.skill_name ++ ":" ++ old.skill_version := by
    unfold skill_signature
    rw [hget]
  rw [hsig', hsig] at hsigs
  exact hver (str_append_left_cancel hsigs).symm

/-- **C6 (amended).** Registering a *fresh* skill name, re-registering an
existing name with a *different version*, or unregistering a *registered*
name each changes the registry fingerprint (the sorted `name:version`
context string); a version change leaves the query hash itself unchanged,
so the cache bypass comes entirely from the fingerprint check: whenever the
entry stored under the current query hash carries a fingerprint different
from the current one, `create_plan` evicts it and regenerates the plan via
the strategy chain instead of returning a cache hit. (Re-registering an
identical skill, or unregistering an absent name, leaves the fingerprint
unchanged — see the counterexample.) -/
theorem C6_registry_fingerprint (st : PlannerState) (sk : Skill) (n : String)
    (uif : SAM_UIF) (hnd : (names st).Nodup) :
    (skill_registered st sk.skill_name = false →
       generate_skill_context (register_skill st sk) ≠ generate_skill_context st) ∧
    (∀ old, alist_get sk.skill_name st.registered_skills = some old →
       old.skill_version ≠ sk.skill_version →
       generate_skill_context (register_skill st sk) ≠ generate_skill_context st ∧
       generate_query_hash (register_skill st sk) uif = generate_query_hash st uif) ∧
    (skill_registered st n = true →
       generate_skill_context (unregister_skill st n) ≠ generate_skill_context st) ∧
    (∀ (st₂ : PlannerState) (uif₂ : SAM_UIF) (t : ℤ) (e : PlanCacheEntry),
       st₂.config.enable_plan_caching = true →
       alist_get (generate_query_hash st₂ uif₂) st₂.plan_cache = some e →
       e.skill_context ≠ generate_skill_context st₂ →
       (create_plan st₂ uif₂ t Option.none).1.cache_hit = false ∧
       (create_plan st₂ uif₂ t Option.none).1.plan =
         (generate_strategy
           { st₂ with plan_cache :=
               alist_erase (generate_query_hash st₂ uif₂) st₂.plan_cache } uif₂).1.plan) := by
  refine ⟨?_, ?_, ?_, ?_⟩
  · intro h hctx
    have hlt := generate_skill_context_register_fresh_length h
    rw [hctx] at hlt
    exact lt_irrefl _ hlt
  · intro old hget hver
    refine ⟨generate_skill_context_register_version_ne hnd hget hver, ?_⟩
    have hreg : skill_registered st sk.skill_name = true := by
      unfold skill_registered
      rw [hget]
      rfl
    unfold generate_query_hash
    rw [names_register_existing hreg]
  · intro h hctx
    have hlt := generate_skill_context_unregister_length hnd h
    rw [hctx] at hlt
    exact lt_irrefl _ hlt
  · intro st₂ uif₂ t e hen hget hne
    have hval : is_cache_entry_valid st₂ t e = false := by
      rw [Bool.eq_false_iff]
      intro hv
      exact hne (is_cache_entry_valid_iff.mp hv).2
    have hchk := check_plan_cache_invalid hget hval
    rw [create_plan_miss hen hchk]
    exact ⟨generate_strategy_cache_hit _ _, rfl⟩

/-- Planner with two registered skills `A:1.0` and `B:1.0` (caching on). -/
def c6_state : PlannerState :=
  { base_state with registered_skills :=
      [("A", mk_skill "A" "1.0"), ("B", mk_skill "B" "1.0")] }

/-- A cache entry under the current query hash of `c6_state` whose recorded
fingerprint is stale. -/
def c6_entry : PlanCacheEntry :=
  { plan := ["ResponseGenerationSkill"], confidence := mkRat 6 10, created_at := 0,
    usage_count := 0, query_hash := generate_query_hash c6_state (base_uif "q"),
    skill_context := "stale" }

/-- `c6_state` carrying the stale entry in its cache. -/
def c6_cached : PlannerState :=
  { c6_state with plan_cache :=
      [(generate_query_hash c6_state (base_uif "q"), c6_entry)] }

/-- Witness for C6: on the concrete two-skill registry, registering fresh
`C:1.0` changes the fingerprint, re-registering `A` at version `2.0` changes
the fingerprint but not the query hash, unregistering `A` changes the
fingerprint, and `create_plan` over a cache whose entry holds a stale
fingerprint does not report a cache hit. -/
theorem C6_witness :
    generate_skill_context (register_skill c6_state (mk_skill "C" "1.0")) ≠
      generate_skill_context c6_state ∧
    generate_skill_context (register_skill c6_state (mk_skill "A" "2.0")) ≠
      generate_skill_context c6_state ∧
    generate_query_hash (register_skill c6_state (mk_skill "A" "2.0")) (base_uif "q") =
      generate_query_hash c6_state (base_uif "q") ∧
    generate_skill_context (unregister_skill c6_state "A") ≠
      generate_skill_context c6_state ∧
    (create_plan c6_cached (base_uif "q") 0 Option.none).1.cache_hit = false := by
  obtain ⟨h1, h2, h3, h4⟩ :=
    C6_registry_fingerprint c6_state (mk_skill "A" "2.0") "A" (base_uif "q") (by decide)
  obtain ⟨h2a, h2b⟩ := h2 (mk_skill "A" "1.0") rfl (by decide)
  obtain ⟨h4a, h4b⟩ := h4 c6_cached (base_uif "q") 0 c6_entry rfl rfl (by decide)
  have hfresh :=
    (C6_registry_fingerprint c6_state (mk_skill "C" "1.0") "A" (base_uif "q")
      (by decide)).1 rfl
  exact ⟨hfresh, h2a, h2b, h3 rfl, h4a⟩

/-- Planner with the single skill `A:1.0` (caching on). -/
def c6_hit_base : PlannerState :=
  { base_state with registered_skills := [("A", mk_skill "A" "1.0")] }

/-- `c6_hit_base` holding a fresh, fingerprint-matching cache entry for the
query `"q"`. -/
def c6_hit : PlannerState :=
  { c6_hit_base with plan_cache :=
      [(generate_query_hash c6_hit_base (base_uif "q"),
        cached_entry c6_hit_base (base_uif "q")
          { plan := ["A"], confidence := mkRat 6 10, reasoning := "r",
            cache_hit := false, generation_time := 0, fallback_used := false } 0)] }

/-- Counterexample to C6 as stated: re-registering the *identical* skill
(`A:1.0`, already registered at that exact version) leaves the registry
fingerprint unchanged, and a subsequent `create_plan` with the identical
query still returns the previously cached entry as a cache hit instead of
regenerating — "registering any skill changes the registry fingerprint" is
too strong. -/
theorem C6_counterexample :
    generate_skill_context (register_skill c6_hit (mk_skill "A" "1.0")) =
      generate_skill_context c6_hit ∧
    (create_plan (register_skill c6_hit (mk_skill "A" "1.0")) (base_uif "q") 0
        Option.none).1.cache_hit = true := by
  exact ⟨rfl, rfl⟩
